import Mathlib

/-!
Verificação da especificação de riff-hero (src/main.cpp) por imersão rasa em Lean 4.

Convenções da imersão:
- `double`/`float` do C++ são modelados como racionais exatos (`ℚ`); as afirmações da
  especificação sobre igualdade «exata» são lidas nessa aritmética ideal.
- `int` do C++ é modelado como `ℤ`; onde o código usa `std::numeric_limits<int>::max()`
  o modelo usa a constante `intMaxC = 2147483647`, e teoremas sobre ticks levam a
  hipótese `tick ≤ intMaxC` (todo tick do programa é um `int`).
- `std::string` (bytes) e `sf::String` são modelados como `List Char`; o laço
  `while (getline ...)` é modelado como uma lista de linhas já separadas.
- exceções de `std::stod`/`std::stoi` são modeladas por `Except ErroParse`, propagadas
  pelo processamento linha a linha como a exceção não capturada abortaria o parse.
- efeitos de apresentação (som, partículas, desenho) são omitidos; o temporizador de
  partículas de sustain é mantido porque vive no estado da nota.
- o conjunto de teclas pressionadas de um jogador é modelado pelas pistas associadas
  (o mapeamento tecla→pista de cada jogador é uma bijeção fixa de 5 entradas).
-/

namespace RiffHero

/-- Dígito decimal: classe `\d` do ECMAScript sobre bytes (`0`–`9`). -/
def ehDigito (c : Char) : Bool := 48 ≤ c.toNat && c.toNat ≤ 57

/-- Espaços aparados pelo laço de leitura do parser:
`find_first_not_of(" \t\r\n")` em main.cpp linhas 304–312. -/
def ehBrancoTrim (c : Char) : Bool :=
  c.toNat = 32 || c.toNat = 9 || c.toNat = 13 || c.toNat = 10

/-- Classe `\s` do ECMAScript sobre bytes (igual a `isspace` da locale C usada por
`strtod`/`strtol`): espaço, `\t`, `\n`, `\v`, `\f`, `\r`. -/
def ehBrancoRegex (c : Char) : Bool :=
  c.toNat = 32 || c.toNat = 9 || c.toNat = 10 || c.toNat = 11 ||
  c.toNat = 12 || c.toNat = 13

/-- Terminadores de linha que o `.` do ECMAScript não casa (`\r`, `\n`). -/
def ehQuebraLinha (c : Char) : Bool := c.toNat = 13 || c.toNat = 10

/-- Valor decimal de uma lista de dígitos, como o laço interno de `strtol`. -/
def valorDigitos (l : List Char) : ℤ :=
  l.foldl (fun n c => 10 * n + ((c.toNat : ℤ) - 48)) 0

/-- Apara espaços no início e no fim da linha (main.cpp linhas 303–313). -/
def aparar (l : List Char) : List Char :=
  ((l.dropWhile ehBrancoTrim).reverse.dropWhile ehBrancoTrim).reverse

/-- Erros de parse: arquivo vazio/inabrível e número malformado
(`std::invalid_argument`/`std::out_of_range` de `stoi`/`stod`, não capturados). -/
inductive ErroParse where
  | arquivoNaoEncontrado : ErroParse
  | numeroMalformado : ErroParse
deriving DecidableEq, Repr

/-- Modelo de `std::stoi` (base 10): salta espaços, sinal opcional, exige ao menos
um dígito (`invalid_argument` caso contrário) e falha com `out_of_range` fora da
faixa de `int`. O valor usa o prefixo maximal de dígitos. -/
def stoiEx (l : List Char) : Except ErroParse ℤ :=
  let l1 := l.dropWhile ehBrancoRegex
  let par : ℤ × List Char :=
    if l1.head? = some '+' then (1, l1.tail)
    else if l1.head? = some '-' then (-1, l1.tail)
    else (1, l1)
  let ds := par.2.takeWhile ehDigito
  if ds = [] then .error .numeroMalformado
  else
    let v := par.1 * valorDigitos ds
    if v < -2147483648 ∨ 2147483647 < v then .error .numeroMalformado else .ok v

/-- Letra minúscula correspondente (para `inf`/`nan`, insensíveis a caixa). -/
def minusculo (c : Char) : Char :=
  if 65 ≤ c.toNat ∧ c.toNat ≤ 90 then Char.ofNat (c.toNat + 32) else c

/-- Prefixo `inf` (insensível a caixa), aceito por `strtod`. -/
def ehPrefixoInf (l : List Char) : Bool :=
  match l with
  | c1 :: c2 :: c3 :: _ =>
    (minusculo c1 == 'i') && (minusculo c2 == 'n') && (minusculo c3 == 'f')
  | _ => false

/-- Prefixo `nan` (insensível a caixa), aceito por `strtod`. -/
def ehPrefixoNan (l : List Char) : Bool :=
  match l with
  | c1 :: c2 :: c3 :: _ =>
    (minusculo c1 == 'n') && (minusculo c2 == 'a') && (minusculo c3 == 'n')
  | _ => false

/-- Modelo de `std::stod` (locale C): salta espaços, sinal opcional, e aceita um
prefixo numérico — dígitos com fração e expoente opcionais, ou `.dígitos`, ou
`inf`/`nan`. Lança (`invalid_argument`, aqui `numeroMalformado`) exatamente quando
nenhum prefixo é aceito. O valor é exato em ℚ para a gramática decimal; valores não
finitos (`inf`/`nan`) e a gramática hexadecimal ficam fora do modelo racional e
recebem o valor do prefixo decimal aceito (0); `out_of_range` de expoentes enormes
não é modelado. Nenhuma afirmação verificada depende desses valores. -/
def stodEx (l : List Char) : Except ErroParse ℚ :=
  let l1 := l.dropWhile ehBrancoRegex
  let par : ℚ × List Char :=
    match l1 with
    | '+' :: r => (1, r)
    | '-' :: r => (-1, r)
    | _ => (1, l1)
  if ehPrefixoInf par.2 || ehPrefixoNan par.2 then .ok 0
  else
    let di := par.2.takeWhile ehDigito
    let l3 := par.2.dropWhile ehDigito
    let frac : List Char × List Char :=
      match l3 with
      | '.' :: r => (r.takeWhile ehDigito, r.dropWhile ehDigito)
      | _ => ([], l3)
    if di = [] ∧ frac.1 = [] then .error .numeroMalformado
    else
      let mantissa : ℚ :=
        (valorDigitos di : ℚ) + (valorDigitos frac.1 : ℚ) / (10 : ℚ) ^ frac.1.length
      let expoente : ℤ :=
        match frac.2 with
        | c :: r =>
          if c == 'e' || c == 'E' then
            let pe : ℤ × List Char :=
              match r with
              | '+' :: r3 => (1, r3)
              | '-' :: r3 => (-1, r3)
              | _ => (1, r)
            let de := pe.2.takeWhile ehDigito
            if de = [] then 0 else pe.1 * valorDigitos de
          else 0
        | [] => 0
      .ok (par.1 * mantissa * (10 : ℚ) ^ expoente)

/-- Passo do casamento de `\s*(.+?)\s*=\s*(.+)` (padraoChaveValor, main.cpp
linha 296) numa linha já aparada: a chave preguiçosa cresce um caractere por vez;
em cada corte testa-se `\s*=` e depois `\s*(.+)` até o fim. `.` não casa `\r`/`\n`.
O `\s*` inicial do padrão é consumido antes da chamada (ver `kvMatch`). -/
def kvGo (chaveRev : List Char) : List Char → Option (List Char × List Char)
  | [] => none
  | c :: cs =>
    if ehQuebraLinha c then none
    else
      match cs.dropWhile ehBrancoRegex with
      | d :: depois =>
        if d = '=' then
          let valor := depois.dropWhile ehBrancoRegex
          if valor ≠ [] ∧ valor.all (fun ch => !ehQuebraLinha ch) then
            some ((c :: chaveRev).reverse, valor)
          else kvGo (c :: chaveRev) cs
        else kvGo (c :: chaveRev) cs
      | [] => kvGo (c :: chaveRev) cs

/-- Casamento total de `\s*(.+?)\s*=\s*(.+)` numa linha aparada. O `\s*` líder é
consumido de antemão; nos raros casos em que o regex real ainda casaria pondo
apenas brancos na chave, a chave resultante nunca é uma das chaves reconhecidas
da seção `Song`, logo o efeito observável (nenhum campo atribuído) coincide. -/
def kvMatch (l : List Char) : Option (List Char × List Char) :=
  kvGo [] (l.dropWhile ehBrancoRegex)

/-- Remove aspas envolventes do valor (main.cpp linhas 362–364). -/
def removerAspas (v : List Char) : List Char :=
  if 2 ≤ v.length ∧ v.head? = some '"' ∧ v.getLast? = some '"' then
    (v.drop 1).dropLast
  else v

/-- Casamento total de `(\d+)\s*=\s*B\s+(\d+)` (padraoTempo, main.cpp linha 298);
devolve os dois grupos de dígitos. -/
def matchTempoB (l : List Char) : Option (List Char × List Char) :=
  let d1 := l.takeWhile ehDigito
  let r1 := l.dropWhile ehDigito
  if d1 = [] then none
  else
    match r1.dropWhile ehBrancoRegex with
    | '=' :: r3 =>
      (match r3.dropWhile ehBrancoRegex with
       | 'B' :: r5 =>
         (match r5 with
          | c :: _ =>
            if ehBrancoRegex c then
              let r6 := r5.dropWhile ehBrancoRegex
              let d2 := r6.takeWhile ehDigito
              if d2 ≠ [] ∧ r6.dropWhile ehDigito = [] then some (d1, d2) else none
            else none
          | [] => none)
       | _ => none)
    | _ => none

/-- Casamento total de `(\d+)\s*=\s*TS\s+(\d+)(?:\s+(\d+))?` (padraoAssinaturaTempo,
main.cpp linha 299); o terceiro grupo é opcional. -/
def matchTS (l : List Char) : Option (List Char × List Char × Option (List Char)) :=
  let d1 := l.takeWhile ehDigito
  let r1 := l.dropWhile ehDigito
  if d1 = [] then none
  else
    match r1.dropWhile ehBrancoRegex with
    | '=' :: r3 =>
      (match r3.dropWhile ehBrancoRegex with
       | 'T' :: 'S' :: r5 =>
         (match r5 with
          | c :: _ =>
            if ehBrancoRegex c then
              let r6 := r5.dropWhile ehBrancoRegex
              let d2 := r6.takeWhile ehDigito
              let r7 := r6.dropWhile ehDigito
              if d2 = [] then none
              else
                match r7 with
                | [] => some (d1, d2, none)
                | c2 :: _ =>
                  if ehBrancoRegex c2 then
                    let r8 := r7.dropWhile ehBrancoRegex
                    let d3 := r8.takeWhile ehDigito
                    if d3 ≠ [] ∧ r8.dropWhile ehDigito = [] then some (d1, d2, some d3)
                    else none
                  else none
            else none
          | [] => none)
       | _ => none)
    | _ => none

/-- Casamento total de `(\d+)\s*=\s*N\s+(\d+)\s+(\d+)` (padraoNota, main.cpp
linha 297). -/
def matchNota (l : List Char) : Option (List Char × List Char × List Char) :=
  let d1 := l.takeWhile ehDigito
  let r1 := l.dropWhile ehDigito
  if d1 = [] then none
  else
    match r1.dropWhile ehBrancoRegex with
    | '=' :: r3 =>
      (match r3.dropWhile ehBrancoRegex with
       | 'N' :: r5 =>
         (match r5 with
          | c :: _ =>
            if ehBrancoRegex c then
              let r6 := r5.dropWhile ehBrancoRegex
              let d2 := r6.takeWhile ehDigito
              let r7 := r6.dropWhile ehDigito
              if d2 = [] then none
              else
                match r7 with
                | c2 :: _ =>
                  if ehBrancoRegex c2 then
                    let r8 := r7.dropWhile ehBrancoRegex
                    let d3 := r8.takeWhile ehDigito
                    if d3 ≠ [] ∧ r8.dropWhile ehDigito = [] then some (d1, d2, d3)
                    else none
                  else none
                | [] => none
            else none
          | [] => none)
       | _ => none)
    | _ => none

/-- Casamento total de `\[(.+)\]` (padraoSecao, main.cpp linha 295):
primeiro caractere `[`, último `]`, miolo não vazio sem terminadores de linha. -/
def secaoMatch (l : List Char) : Option (List Char) :=
  match l with
  | '[' :: resto =>
    if resto.getLast? = some ']' ∧ 2 ≤ resto.length ∧
       resto.dropLast.all (fun c => !ehQuebraLinha c) then
      some resto.dropLast
    else none
  | _ => none

/-- Mudança de tempo do chart (struct MudancaTempo, main.cpp linhas 207–230). -/
structure MudancaTempo where
  tick : ℤ
  valorBruto : ℤ
deriving DecidableEq, Repr

/-- BPM = valorBruto/1000 (obterBPM). -/
def MudancaTempo.obterBPM (m : MudancaTempo) : ℚ := (m.valorBruto : ℚ) / 1000

/-- Microssegundos por batida: 0 se BPM ≤ 0, senão 60 000 000/BPM
(obterMicrossegundosPorBatida). -/
def MudancaTempo.obterMicrossegundosPorBatida (m : MudancaTempo) : ℚ :=
  if m.obterBPM ≤ 0 then 0 else 60000000 / m.obterBPM

/-- Assinatura de tempo (struct AssinaturaTempo, main.cpp linhas 235–242). -/
structure AssinaturaTempo where
  tick : ℤ
  numerador : ℤ
  denominador : ℤ
deriving DecidableEq, Repr

/-- Nota do chart (struct NotaChart, main.cpp linhas 247–254). -/
structure NotaChart where
  tick : ℤ
  traste : ℤ
  comprimento : ℤ
deriving DecidableEq, Repr

/-- Dados completos de um chart (struct DadosChart, main.cpp linhas 259–271);
os `std::map` ordenados por tick viram listas de associação ordenadas por chave,
e os campos de texto viram `List Char`. Os valores padrão são os inicializadores
de membro do C++ (em particular `resolucao = 192`). -/
structure DadosChart where
  nome : List Char := []
  artista : List Char := []
  streamMusica : List Char := []
  criadorChart : List Char := []
  album : List Char := []
  ano : List Char := []
  genero : List Char := []
  tipoMidia : List Char := []
  offset : ℚ := 0
  resolucao : ℤ := 192
  dificuldade : ℤ := 0
  inicioPreview : ℚ := 0
  fimPreview : ℚ := 0
  jogador2 : List Char := []
  mudancasTempo : List (ℤ × MudancaTempo) := []
  assinaturasTempo : List (ℤ × AssinaturaTempo) := []
  notas : List NotaChart := []
deriving DecidableEq, Repr

/-- Modelo de `std::map::emplace` numa lista de associação ordenada por chave:
insere mantendo a ordem e NÃO substitui quando a chave já existe. -/
def mapEmplace {α : Type} (k : ℤ) (v : α) : List (ℤ × α) → List (ℤ × α)
  | [] => [(k, v)]
  | (k2, v2) :: r =>
    if k < k2 then (k, v) :: (k2, v2) :: r
    else if k = k2 then (k2, v2) :: r
    else (k2, v2) :: mapEmplace k v r

/-- Nomes de seção e chaves reconhecidas (bytes ASCII). -/
def nomeSong : List Char := ['S', 'o', 'n', 'g']

def nomeSyncTrack : List Char := ['S', 'y', 'n', 'c', 'T', 'r', 'a', 'c', 'k']

def nomeExpertSingle : List Char :=
  ['E', 'x', 'p', 'e', 'r', 't', 'S', 'i', 'n', 'g', 'l', 'e']

def nomeHardSingle : List Char := ['H', 'a', 'r', 'd', 'S', 'i', 'n', 'g', 'l', 'e']

def nomeMediumSingle : List Char :=
  ['M', 'e', 'd', 'i', 'u', 'm', 'S', 'i', 'n', 'g', 'l', 'e']

def nomeEasySingle : List Char := ['E', 'a', 's', 'y', 'S', 'i', 'n', 'g', 'l', 'e']

def chaveName : List Char := ['N', 'a', 'm', 'e']

def chaveArtist : List Char := ['A', 'r', 't', 'i', 's', 't']

def chaveCharter : List Char := ['C', 'h', 'a', 'r', 't', 'e', 'r']

def chaveAlbum : List Char := ['A', 'l', 'b', 'u', 'm']

def chaveYear : List Char := ['Y', 'e', 'a', 'r']

def chaveGenre : List Char := ['G', 'e', 'n', 'r', 'e']

def chaveMediaType : List Char := ['M', 'e', 'd', 'i', 'a', 'T', 'y', 'p', 'e']

def chavePlayer2 : List Char := ['P', 'l', 'a', 'y', 'e', 'r', '2']

def chaveMusicStream : List Char :=
  ['M', 'u', 's', 'i', 'c', 'S', 't', 'r', 'e', 'a', 'm']

def chaveOffset : List Char := ['O', 'f', 'f', 's', 'e', 't']

def chaveResolution : List Char :=
  ['R', 'e', 's', 'o', 'l', 'u', 't', 'i', 'o', 'n']

def chaveDifficulty : List Char :=
  ['D', 'i', 'f', 'f', 'i', 'c', 'u', 'l', 't', 'y']

def chavePreviewStart : List Char :=
  ['P', 'r', 'e', 'v', 'i', 'e', 'w', 'S', 't', 'a', 'r', 't']

def chavePreviewEnd : List Char :=
  ['P', 'r', 'e', 'v', 'i', 'e', 'w', 'E', 'n', 'd']

/-- Despacho de uma linha `Chave = Valor` da seção `Song` sobre os campos do chart
(main.cpp linhas 367–380); campos numéricos passam por `stodEx`/`stoiEx`. -/
def aplicarChaveSong (chart : DadosChart) (chave valor : List Char) :
    Except ErroParse DadosChart :=
  if chave = chaveName then .ok { chart with nome := valor }
  else if chave = chaveArtist then .ok { chart with artista := valor }
  else if chave = chaveCharter then .ok { chart with criadorChart := valor }
  else if chave = chaveAlbum then .ok { chart with album := valor }
  else if chave = chaveYear then .ok { chart with ano := valor }
  else if chave = chaveGenre then .ok { chart with genero := valor }
  else if chave = chaveMediaType then .ok { chart with tipoMidia := valor }
  else if chave = chavePlayer2 then .ok { chart with jogador2 := valor }
  else if chave = chaveMusicStream then .ok { chart with streamMusica := valor }
  else if chave = chaveOffset then (stodEx valor).map (fun q => { chart with offset := q })
  else if chave = chaveResolution then
    (stoiEx valor).map (fun n => { chart with resolucao := n })
  else if chave = chaveDifficulty then
    (stoiEx valor).map (fun n => { chart with dificuldade := n })
  else if chave = chavePreviewStart then
    (stodEx valor).map (fun q => { chart with inicioPreview := q })
  else if chave = chavePreviewEnd then
    (stodEx valor).map (fun q => { chart with fimPreview := q })
  else .ok chart

/-- Processa uma linha (já aparada) dentro da seção ativa
(processarLinhaNaSecao, main.cpp linhas 350–406). -/
def processarLinhaNaSecao (chart : DadosChart) (secao linha : List Char) :
    Except ErroParse DadosChart :=
  if secao = nomeSong then
    match kvMatch linha with
    | some par => aplicarChaveSong chart par.1 (removerAspas par.2)
    | none => .ok chart
  else if secao = nomeSyncTrack then
    match matchTempoB linha with
    | some par =>
      (stoiEx par.1).bind fun t =>
        (stoiEx par.2).bind fun v =>
          .ok { chart with mudancasTempo := mapEmplace t ⟨t, v⟩ chart.mudancasTempo }
    | none =>
      match matchTS linha with
      | some tri =>
        (stoiEx tri.1).bind fun t =>
          (stoiEx tri.2.1).bind fun numerador =>
            (match tri.2.2 with
             | some d3 => stoiEx d3
             | none => .ok 4).bind fun den0 =>
              let den := if den0 = 0 then 4 else den0
              .ok { chart with
                      assinaturasTempo :=
                        mapEmplace t ⟨t, numerador, den⟩ chart.assinaturasTempo }
      | none => .ok chart
  else if secao = nomeExpertSingle ∨ secao = nomeHardSingle ∨
          secao = nomeMediumSingle ∨ secao = nomeEasySingle then
    match matchNota linha with
    | some tri =>
      (stoiEx tri.1).bind fun t =>
        (stoiEx tri.2.1).bind fun tr =>
          (stoiEx tri.2.2).bind fun comp =>
            .ok { chart with notas := chart.notas ++ [⟨t, tr, comp⟩] }
    | none => .ok chart
  else .ok chart

/-- Uma iteração do laço `while (getline ...)` (main.cpp linhas 302–336): apara,
pula vazias e comentários `//`, troca de seção em `[Nome]`, ignora chaves soltas
e processa a linha na seção ativa (se houver). O estado é (chart, seçãoAtual). -/
def passoLinha (st : DadosChart × List Char) (linha : List Char) :
    Except ErroParse (DadosChart × List Char) :=
  let l := aparar linha
  if l = [] ∨ l.take 2 = ['/', '/'] then .ok st
  else
    match secaoMatch l with
    | some nova => .ok (st.1, nova)
    | none =>
      if l = [Char.ofNat 123] ∨ l = [Char.ofNat 125] then .ok st
      else if st.2 ≠ [] then (processarLinhaNaSecao st.1 st.2 l).map fun c => (c, st.2)
      else .ok st

/-- Percorre as linhas em ordem, abortando na primeira exceção. -/
def percorrerLinhas (st : DadosChart × List Char) :
    List (List Char) → Except ErroParse (DadosChart × List Char)
  | [] => .ok st
  | l :: r =>
    match passoLinha st l with
    | .error e => .error e
    | .ok st2 => percorrerLinhas st2 r

/-- Inserção ordenada estável de uma nota por tick. -/
def insereNotaOrdenada (n : NotaChart) : List NotaChart → List NotaChart
  | [] => [n]
  | x :: r => if n.tick ≤ x.tick then n :: x :: r else x :: insereNotaOrdenada n r

/-- Ordenação das notas por tick ao fim do parse (main.cpp linhas 339–341). -/
def ordenarNotas : List NotaChart → List NotaChart
  | [] => []
  | x :: r => insereNotaOrdenada x (ordenarNotas r)

/-- Parse completo de um chart a partir das suas linhas
(fazerParsingChart, main.cpp linhas 283–344). Arquivo inabrível ou vazio não
produz linha alguma e falha como `FileNotFound`. -/
def fazerParsingChart (linhas : List (List Char)) : Except ErroParse DadosChart :=
  if linhas = [] then .error .arquivoNaoEncontrado
  else
    match percorrerLinhas ({}, []) linhas with
    | .error e => .error e
    | .ok st => .ok { st.1 with notas := ordenarNotas st.1.notas }

/-- Maior valor de `int` (`std::numeric_limits<int>::max()`). -/
def intMaxC : ℤ := 2147483647

/-- Inserção ordenada de uma mudança de tempo por tick. -/
def insereMudancaOrdenada (e : MudancaTempo) : List MudancaTempo → List MudancaTempo
  | [] => [e]
  | x :: r => if e.tick ≤ x.tick then e :: x :: r else x :: insereMudancaOrdenada e r

/-- Ordenação por tick das mudanças de tempo copiadas do mapa
(construtor de CalculadoraTempo, main.cpp linhas 423–430). -/
def ordenarMudancas : List MudancaTempo → List MudancaTempo
  | [] => []
  | x :: r => insereMudancaOrdenada x (ordenarMudancas r)

/-- Lista ordenada de mudanças de tempo da CalculadoraTempo, com o evento
sintético `{tick 0, 120000}` acrescentado à frente quando a lista é vazia ou o
primeiro tick não é 0 (main.cpp linhas 432–435). -/
def mudancasTempoOrdenadas (chart : DadosChart) : List MudancaTempo :=
  let ordenadas := ordenarMudancas (chart.mudancasTempo.map Prod.snd)
  match ordenadas with
  | [] => [⟨0, 120000⟩]
  | e :: r => if e.tick ≠ 0 then ⟨0, 120000⟩ :: e :: r else e :: r

/-- Tick do próximo evento de tempo, ou `INT_MAX` quando o segmento atual é o
último (main.cpp linhas 449–451). -/
def proximoTick : List MudancaTempo → ℤ
  | [] => intMaxC
  | ev2 :: _ => ev2.tick

/-- Laço de `ticksParaSegundos` (main.cpp linhas 443–480) sobre a lista de
segmentos: estado (lista restante, tickAtual, tempo acumulado). Todas as saídas
do C++ (breaks, retorno do guarda de resolução 0 e queda do laço) devolvem
`tempoEmSegundos + offset`. -/
def somaLoop (res : ℤ) (off : ℚ) (tickAlvo : ℤ) :
    List MudancaTempo → ℤ → ℚ → ℚ
  | [], _tickAtual, acc => acc + off
  | ev :: resto, tickAtual, acc =>
    let tickFinalSegmento := min tickAlvo (proximoTick resto)
    let ticksNoSegmento := tickFinalSegmento - tickAtual
    if ticksNoSegmento ≤ 0 ∧ 0 < tickAlvo ∧ tickAlvo ≤ tickAtual then acc + off
    else if ¬(ticksNoSegmento ≤ 0 ∧ 0 < tickAlvo) ∧ ticksNoSegmento < 0 then acc + off
    else if res = 0 then acc + off
    else
      let segundosPorTick :=
        ev.obterMicrossegundosPorBatida / (res : ℚ) / 1000000
      let acc2 := acc + (ticksNoSegmento : ℚ) * segundosPorTick
      if tickAlvo ≤ tickFinalSegmento then acc2 + off
      else somaLoop res off tickAlvo resto tickFinalSegmento acc2

/-- Conversão de ticks para segundos (Chart::CalculadoraTempo::ticksParaSegundos,
main.cpp linhas 443–480). -/
def ticksParaSegundos (chart : DadosChart) (tickAlvo : ℤ) : ℚ :=
  somaLoop chart.resolucao chart.offset tickAlvo (mudancasTempoOrdenadas chart) 0 0

/-- Forma fechada do integral por segmentos: para cada segmento `[tick_i, tick_{i+1})`
a contribuição é `(min alvo tick_{i+1} − min alvo tick_i) × segundosPorTick_i`.
É um artefato de análise, provado igual ao laço em `somaLoop_eq_soma`. -/
def somaSegmentos (res : ℤ) (alvo : ℤ) : List MudancaTempo → ℚ
  | [] => 0
  | e :: r =>
    ((min alvo (proximoTick r) - min alvo e.tick : ℤ) : ℚ) *
        (e.obterMicrossegundosPorBatida / (res : ℚ) / 1000000) +
      somaSegmentos res alvo r

/-- Boa formação de uma lista de segmentos: ticks estritamente crescentes e na
faixa de valores de tick que o parser produz (`\d+` convertido por `stoi`:
entre 0 e `INT_MAX`). -/
def TicksOK (L : List MudancaTempo) : Prop :=
  List.Chain' (fun a b => a.tick < b.tick) L ∧
  ∀ e ∈ L, 0 ≤ e.tick ∧ e.tick ≤ intMaxC

/-- Boa formação de um chart: o mapa de mudanças de tempo tem chaves estritamente
crescentes (invariante de `std::map`), cada valor guarda o tick da sua chave
(o parser constrói ambos do mesmo grupo de dígitos) e as chaves estão na faixa
produzida por `stoi` de `\d+` (0 a `INT_MAX`). -/
def ChartBemFormado (chart : DadosChart) : Prop :=
  List.Chain' (fun a b => a.1 < b.1) chart.mudancasTempo ∧
  ∀ p ∈ chart.mudancasTempo, p.2.tick = p.1 ∧ 0 ≤ p.1 ∧ p.1 ≤ intMaxC

/-- Constantes de layout e timing do jogo (main.cpp linhas 53–84), em ℚ. -/
def ALTURA_JANELA : ℚ := 1200

/-- Y da zona de acerto: ALTURA_JANELA − 100. -/
def Y_ZONA_ACERTO : ℚ := 1100

/-- Altura visual de uma nota. -/
def ALTURA_NOTA : ℚ := 45

/-- Altura da banda da zona de acerto. -/
def ALTURA_ZONA_ACERTO : ℚ := 75

/-- Velocidade de queda em pixels por segundo. -/
def VELOCIDADE_QUEDA_NOTA_PPS : ℚ := 800

/-- Tolerância de acerto em milissegundos. -/
def TOLERANCIA_ACERTO_MS : ℚ := 200

/-- Intervalo entre partículas de sustain, em segundos (0.08). -/
def INTERVALO_SPAWN_PARTICULA_SUSTAIN : ℚ := 8 / 100

/-- Nota em tempo de execução (struct Nota, main.cpp linhas 489–571). A cor e o
ponteiro `dono` são omitidos: a cor é só visual e o dono é dado pela lista de
notas do jogador em que a instância vive. -/
structure Nota where
  timestampSec : ℚ := 0
  tickOriginal : ℤ := 0
  pista : ℤ := 0
  traste : ℤ := 0
  posicaoY : ℚ := 0
  naTela : Bool := false
  acertada : Bool := false
  perdida : Bool := false
  ehNotaLonga : Bool := false
  tempoFimSustainSec : ℚ := 0
  sustainAtivo : Bool := false
  sustainCompleto : Bool := false
  tempoAteProximaParticulaSustain : ℚ := 0
deriving DecidableEq, Repr

/-- Atualização de visibilidade de uma nota (atualizarVisibilidadeNota, main.cpp
linhas 1053–1091). -/
def atualizarVisibilidadeNota (nota : Nota) : Nota :=
  let raioCabeca : ℚ := ALTURA_NOTA / 2
  let pixelsSustain : ℚ :=
    (nota.tempoFimSustainSec - nota.timestampSec) * VELOCIDADE_QUEDA_NOTA_PPS
  let cabecaVisivel :=
    0 < nota.posicaoY + raioCabeca ∧ nota.posicaoY - raioCabeca < ALTURA_JANELA
  let caldaVisivel :=
    nota.ehNotaLonga = true ∧ 0 < nota.posicaoY ∧
      nota.posicaoY - max 0 pixelsSustain < ALTURA_JANELA
  let nota1 :=
    if (cabecaVisivel ∨ caldaVisivel) ∧ nota.naTela = false then
      { nota with naTela := true }
    else nota
  if nota1.naTela = true then
    if nota1.posicaoY + raioCabeca < 0 then
      let nota2 :=
        if nota1.acertada = false ∧ nota1.perdida = false then
          { nota1 with perdida := true }
        else nota1
      { nota2 with naTela := false }
    else
      let yVisualMaisAlto :=
        if nota1.ehNotaLonga = true then nota1.posicaoY - pixelsSustain
        else nota1.posicaoY - raioCabeca
      if ALTURA_JANELA < yVisualMaisAlto then
        let nota2 :=
          if nota1.acertada = false ∧ nota1.perdida = false then
            { nota1 with perdida := true }
          else nota1
        let nota3 :=
          if nota2.ehNotaLonga = true ∧ nota2.acertada = true ∧
             nota2.sustainCompleto = false then
            { nota2 with perdida := true }
          else nota2
        { nota3 with naTela := false }
      else nota1
  else nota1

/-- Verificação de nota perdida (verificarNotaPerdida, main.cpp linhas 1098–1107). -/
def verificarNotaPerdida (tempoMusicaSec : ℚ) (nota : Nota) : Nota :=
  if nota.ehNotaLonga = false ∧
     Y_ZONA_ACERTO + ALTURA_ZONA_ACERTO + ALTURA_NOTA / 2 < nota.posicaoY then
    { nota with perdida := true }
  else if nota.ehNotaLonga = true ∧
          nota.tempoFimSustainSec + TOLERANCIA_ACERTO_MS / 1000 < tempoMusicaSec then
    { nota with perdida := true }
  else nota

/-- Lógica por nota de um tique do jogador (corpo do laço de
atualizarLogicaJogador, main.cpp linhas 1029–1046): posição recalculada do tempo
da música, visibilidade, e verificação de perda para notas na tela não acertadas. -/
def atualizarNotaLogica (tempoMusicaSec : ℚ) (nota : Nota) : Nota :=
  let nota0 :=
    { nota with
        posicaoY :=
          Y_ZONA_ACERTO - (nota.timestampSec - tempoMusicaSec) * VELOCIDADE_QUEDA_NOTA_PPS }
  if nota0.perdida = true then atualizarVisibilidadeNota nota0
  else
    let nota1 := atualizarVisibilidadeNota nota0
    if nota1.naTela = true ∧ nota1.acertada = false then
      verificarNotaPerdida tempoMusicaSec nota1
    else nota1

/-- Atualização das notas de um jogador num tique (atualizarLogicaJogador,
main.cpp linhas 1027–1047). -/
def atualizarLogicaJogador (tempoMusicaSec : ℚ) (notas : List Nota) : List Nota :=
  notas.map (atualizarNotaLogica tempoMusicaSec)

/-- Condição de acerto de uma nota por um aperto de tecla na pista alvo
(verificarAcertoNota, main.cpp linhas 1290–1293): pista igual, não acertada,
não perdida, na tela, dentro da banda da zona de acerto e a menos de
`TOLERANCIA_ACERTO_MS` milissegundos do timestamp. -/
def condicaoAcertoNota (pistaAlvo : ℤ) (tempoMusicaSec : ℚ) (nota : Nota) : Bool :=
  (nota.pista == pistaAlvo) && (!nota.acertada) && (!nota.perdida) && nota.naTela &&
  decide (Y_ZONA_ACERTO - ALTURA_NOTA ≤ nota.posicaoY) &&
  decide (nota.posicaoY ≤ Y_ZONA_ACERTO + ALTURA_ZONA_ACERTO + ALTURA_NOTA) &&
  decide (|nota.timestampSec - tempoMusicaSec| * 1000 ≤ TOLERANCIA_ACERTO_MS)

/-- Varredura de acerto (verificarAcertoNota, main.cpp linhas 1287–1315): marca
TODAS as notas que satisfazem a condição (não há break), soma 5 pontos por nota
longa e 10 por curta, e devolve o valor de retorno do C++ — `false` fixo
(linha 1314, «Mantido como estava no código original»). Som e partículas são
efeitos de apresentação omitidos. -/
def verificarAcertoNota (pistaAlvo : ℤ) (tempoMusicaSec : ℚ) :
    List Nota → List Nota × ℤ × Bool
  | [] => ([], 0, false)
  | nota :: resto =>
    let r := verificarAcertoNota pistaAlvo tempoMusicaSec resto
    if condicaoAcertoNota pistaAlvo tempoMusicaSec nota = true then
      ({ nota with acertada := true } :: r.1,
       (if nota.ehNotaLonga = true then 5 else 10) + r.2.1, r.2.2)
    else (nota :: r.1, r.2.1, r.2.2)

/-- Atualização de sustain de UMA nota num tique (corpo do laço de
atualizarSustainParaJogador, main.cpp linhas 1118–1150). `teclaSegura` é
«alguma tecla mapeada à pista da nota está pressionada». Devolve a nota nova e
os pontos ganhos. O spawn de partículas é omitido; o temporizador
`tempoAteProximaParticulaSustain` é mantido. -/
def atualizarSustainUmaNota (teclaSegura : Bool) (tempoMusicaSec dt : ℚ)
    (nota : Nota) : Nota × ℤ :=
  if nota.ehNotaLonga = false ∨ nota.sustainCompleto = true ∨ nota.perdida = true ∨
     nota.naTela = false ∨ nota.acertada = false then (nota, 0)
  else
    let dentroPeriodoSustain :=
      nota.timestampSec ≤ tempoMusicaSec ∧ tempoMusicaSec ≤ nota.tempoFimSustainSec
    let par : Nota × ℤ :=
      if teclaSegura = true ∧ dentroPeriodoSustain then
        let n1 := { nota with sustainAtivo := true }
        let temp := n1.tempoAteProximaParticulaSustain - dt
        let n2 :=
          if temp ≤ 0 then
            { n1 with tempoAteProximaParticulaSustain := INTERVALO_SPAWN_PARTICULA_SUSTAIN }
          else { n1 with tempoAteProximaParticulaSustain := temp }
        (n2, 1)
      else ({ nota with sustainAtivo := false }, 0)
    if par.1.tempoFimSustainSec < tempoMusicaSec ∧ par.1.sustainAtivo = true then
      ({ par.1 with sustainCompleto := true, sustainAtivo := false }, par.2 + 20)
    else par

/-- Atualização de sustain das notas de um jogador (atualizarSustainParaJogador,
main.cpp linhas 1116–1151); `pressionadaNaPista p` diz se alguma tecla mapeada à
pista `p` está pressionada. Devolve as notas novas e o total de pontos ganhos. -/
def atualizarSustainParaJogador (pressionadaNaPista : ℤ → Bool)
    (tempoMusicaSec dt : ℚ) : List Nota → List Nota × ℤ
  | [] => ([], 0)
  | nota :: resto =>
    let par := atualizarSustainUmaNota (pressionadaNaPista nota.pista) tempoMusicaSec dt nota
    let r := atualizarSustainParaJogador pressionadaNaPista tempoMusicaSec dt resto
    (par.1 :: r.1, par.2 + r.2)

/-- Estado de um jogador (struct Jogador, main.cpp linhas 170–196): pontuação,
pistas cujas teclas estão pressionadas, e a trava por pista de acerto de nota
curta (inicialmente permitido em toda pista). -/
structure Jogador where
  pontuacao : ℤ := 0
  teclasPresionadas : List ℤ := []
  pistaPermiteAcertoNotaCurta : ℤ → Bool := fun _ => true

/-- Aperto de tecla de um jogador numa pista (lambda processarTeclaPressJogador,
main.cpp linhas 1238–1254): registra a tecla, e se a trava da pista permite,
chama a varredura de acerto; se ela devolvesse `true`, a trava seria armada
(posta em `false`). A pontuação somada dentro de `verificarAcertoNota` no C++ é
aplicada aqui pelo delta devolvido. -/
def processarTeclaPressJogador (jog : Jogador) (notas : List Nota) (pista : ℤ)
    (tempoMusicaSec : ℚ) : Jogador × List Nota :=
  let jog1 :=
    { jog with
        teclasPresionadas :=
          if pista ∈ jog.teclasPresionadas then jog.teclasPresionadas
          else pista :: jog.teclasPresionadas }
  if jog1.pistaPermiteAcertoNotaCurta pista = true then
    let r := verificarAcertoNota pista tempoMusicaSec notas
    let jog2 := { jog1 with pontuacao := jog1.pontuacao + r.2.1 }
    if r.2.2 = true then
      ({ jog2 with
           pistaPermiteAcertoNotaCurta :=
             fun p => if p = pista then false else jog2.pistaPermiteAcertoNotaCurta p },
       r.1)
    else (jog2, r.1)
  else (jog1, notas)

/-- Soltura de tecla de um jogador numa pista (processarTeclaRelease, main.cpp
linhas 1264–1277): remove a tecla do conjunto e rearma a trava da pista. -/
def processarTeclaReleaseJogador (jog : Jogador) (pista : ℤ) : Jogador :=
  { jog with
      teclasPresionadas := jog.teclasPresionadas.filter (fun p => p ≠ pista)
      pistaPermiteAcertoNotaCurta :=
        fun p => if p = pista then true else jog.pistaPermiteAcertoNotaCurta p }

/-- Chart de exemplo com um único evento de tempo (120 BPM no tick 0) e
resolução 192. -/
def chartExemploUnico : DadosChart :=
  { mudancasTempo := [(0, ⟨0, 120000⟩)], resolucao := 192, offset := 0 }

/-- Chart de exemplo cujo primeiro evento de tempo está no tick 384 (150 BPM),
com offset 7. -/
def chartExemploSemZero : DadosChart :=
  { mudancasTempo := [(384, ⟨384, 150000⟩)], resolucao := 192, offset := 7 }

/-- Chart de exemplo degenerado com resolução 0 e offset 3. -/
def chartExemploResZero : DadosChart :=
  { mudancasTempo := [(0, ⟨0, 120000⟩)], resolucao := 0, offset := 3 }

/-- Nota longa de exemplo já acertada, com sustain de 0 s a 2 s, na tela. -/
def notaExemploSustain : Nota :=
  { timestampSec := 0, ehNotaLonga := true, tempoFimSustainSec := 2,
    naTela := true, acertada := true }

/-- Trajetória da nota de sustain de exemplo com a tecla segura o tempo todo,
avaliada nos tiques em t = 1 e t = 3 (o cruzamento de `sustainEndSec = 2`
acontece entre os dois): devolve a nota final e o total de pontos. -/
def trajetoriaSustainExemplo : Nota × ℤ :=
  List.foldl
    (fun st t =>
      let r := atualizarSustainUmaNota true t 1 st.1
      (r.1, st.2 + r.2))
    (notaExemploSustain, 0) [1, 3]

/-- Nota curta de exemplo com `|timestampSec − t| = 0.199999` para `t = 0`, com a
posição e a visibilidade recalculadas pelo próprio passo de atualização em
`t = 0` (posição fresca). -/
def notaExemploC4 : Nota :=
  atualizarNotaLogica 0 { timestampSec := 199999 / 1000000, pista := 0 }

/-- Nota curta de exemplo exatamente na zona de acerto no instante 10 s. -/
def notaExemploC7 : Nota :=
  atualizarNotaLogica 10 { timestampSec := 10, pista := 2 }

/-- Jogador de exemplo recém-construído (trava de nota curta liberada em todas
as pistas). -/
def jogadorExemploC7 : Jogador := {}

/-- Linha de cabeçalho da seção `Song`. -/
def secaoSongLinha : List Char := ['[', 'S', 'o', 'n', 'g', ']']

/-- Linha de cabeçalho da seção `SyncTrack`. -/
def secaoSyncLinha : List Char :=
  ['[', 'S', 'y', 'n', 'c', 'T', 'r', 'a', 'c', 'k', ']']

/-- Linha `Offset = <v>` da seção `Song`, com o texto do valor como parâmetro. -/
def linhaOffset (v : List Char) : List Char :=
  ['O', 'f', 'f', 's', 'e', 't', ' ', '=', ' '] ++ v

/-- Linha `0 = B <dv>` da seção `SyncTrack`, com os dígitos do valor bruto como
parâmetro. -/
def linhaTempoB (dv : List Char) : List Char :=
  ['0', ' ', '=', ' ', 'B', ' '] ++ dv

/-- Linha `0 = TS <dn>` da seção `SyncTrack`, sem denominador explícito. -/
def linhaTS (dn : List Char) : List Char :=
  ['0', ' ', '=', ' ', 'T', 'S', ' '] ++ dn

/-- Texto de valor não numérico usado nos exemplos. -/
def vNotanumber : List Char := ['n', 'o', 't', 'a', 'n', 'u', 'm', 'b', 'e', 'r']

/-- Arquivo de exemplo para C10: seção `Song` sem chave `Resolution`. -/
def arquivoExemploC10 : List (List Char) :=
  [secaoSongLinha, ['N', 'a', 'm', 'e', ' ', '=', ' ', 'x']]

/-- Chart esperado do arquivo de exemplo de C10 (só o nome preenchido; a
resolução fica no padrão 192). -/
def chartExemploC10 : DadosChart := { nome := ['x'] }

/-- Arquivo de exemplo para C6: seção `SyncTrack` com linhas `B` duplicadas
(120000 e depois 150000) e linhas `TS` duplicadas (4 e depois 3), todas no
tick 0. -/
def arquivoExemploC6 : List (List Char) :=
  [secaoSyncLinha, linhaTempoB ['1', '2', '0', '0', '0', '0'],
   linhaTempoB ['1', '5', '0', '0', '0', '0'], linhaTS ['4'], linhaTS ['3']]

/-- Seção resultante depois de processar uma linha: muda apenas em linhas de
cabeçalho `[Nome]` (espelha o rastreamento de `secaoAtual` em `passoLinha`). -/
def proximaSecao (sec linha : List Char) : List Char :=
  match secaoMatch (aparar linha) with
  | some s2 => s2
  | none => sec

/-- Uma linha que, processada na seção `sec`, atribuiria o campo `Resolution`
(isto é, chega ao despacho da seção `Song` com a chave `Resolution`). -/
def linhaDefineResolucao (sec linha : List Char) : Bool :=
  let l := aparar linha
  if l = [] ∨ l.take 2 = ['/', '/'] then false
  else if (secaoMatch l).isSome then false
  else if l = [Char.ofNat 123] ∨ l = [Char.ofNat 125] then false
  else if sec = nomeSong then
    match kvMatch l with
    | some par => decide (par.1 = chaveResolution)
    | none => false
  else false

/-- Alguma linha do arquivo define `Resolution`, rastreando a seção corrente a
partir de `sec`. -/
def temLinhaResolucao (sec : List Char) : List (List Char) → Bool
  | [] => false
  | l :: r => linhaDefineResolucao sec l || temLinhaResolucao (proximaSecao sec l) r

/-! ## Lemas auxiliares -/

/-- A varredura de acerto devolve sempre `false` como «acertou?», espelhando o
`return false` fixo de main.cpp linha 1314. -/
theorem verificarAcertoNota_retorna_false (pistaAlvo : ℤ) (t : ℚ) :
    ∀ notas : List Nota, (verificarAcertoNota pistaAlvo t notas).2.2 = false := by
  intro notas
  induction notas with
  | nil => rfl
  | cons nota resto ih =>
    unfold verificarAcertoNota
    by_cases h : condicaoAcertoNota pistaAlvo t nota = true <;> simp [h, ih]

/-- Conversão no tick 0: o laço devolve o offset, qualquer que seja o chart. -/
theorem somaLoop_alvo_zero (res : ℤ) (off : ℚ) (L : List MudancaTempo) (acc : ℚ) :
    somaLoop res off 0 L 0 acc = acc + off := by
  cases L with
  | nil => rfl
  | cons e r =>
    rw [somaLoop]
    split_ifs with h1 h2 h3 h4
    · rfl
    · rfl
    · rfl
    · have hC : ¬ (min (0 : ℤ) (proximoTick r) - 0 < 0) := fun hc =>
        h2 ⟨fun hab => absurd hab.2 (lt_irrefl 0), hc⟩
      have hseg : min (0 : ℤ) (proximoTick r) - 0 = 0 := by omega
      rw [hseg]
      push_cast
      ring
    · exfalso
      have hC : ¬ (min (0 : ℤ) (proximoTick r) - 0 < 0) := fun hc =>
        h2 ⟨fun hab => absurd hab.2 (lt_irrefl 0), hc⟩
      omega

/-- `ticksParaSegundos` no tick 0 é sempre o offset do chart. -/
theorem ticksParaSegundos_zero (chart : DadosChart) :
    ticksParaSegundos chart 0 = chart.offset := by
  unfold ticksParaSegundos
  rw [somaLoop_alvo_zero]
  ring

/-! ## Afirmações -/

/-- C9: para todo chart com `resolution == 0`, `ticksToSeconds` nunca divide pela
resolução (o guarda devolve antes) e o resultado é o tempo acumulado até o guarda
disparar — sempre 0, pois o guarda é testado antes de qualquer acumulação —
mais o offset; ou seja, o valor parcial truncado `offsetSeconds`. -/
theorem claim_C9_resolucao_zero (chart : DadosChart) (tick : ℤ)
    (hres : chart.resolucao = 0) :
    ticksParaSegundos chart tick = 0 + chart.offset := by
  unfold ticksParaSegundos
  rw [hres]
  cases h : mudancasTempoOrdenadas chart with
  | nil => rw [somaLoop]
  | cons e r =>
    rw [somaLoop]
    split_ifs with h1 h2 h3 h4
    · ring
    · ring
    · ring
    · exact absurd rfl h3
    · exact absurd rfl h3

/-- Testemunha de C9 num chart concreto com resolução 0. -/
theorem claim_C9_resolucao_zero_witness :
    ticksParaSegundos chartExemploResZero 100 = 0 + chartExemploResZero.offset :=
  claim_C9_resolucao_zero chartExemploResZero 100 (by decide)

/-- C8: quando a lista ordenada de eventos de tempo é vazia ou o tick do primeiro
evento não é 0, a CalculadoraTempo sintetiza o evento líder `{tick 0, 120000}`
(120 BPM) à frente da lista; em consequência, para um chart cujo primeiro evento
de tempo está num tick não nulo, `ticksToSeconds(0) = offsetSeconds`. -/
theorem claim_C8_sintetiza_evento_zero (chart : DadosChart)
    (h : (ordenarMudancas (chart.mudancasTempo.map Prod.snd)).head?.map
           MudancaTempo.tick ≠ some 0) :
    mudancasTempoOrdenadas chart =
      ⟨0, 120000⟩ :: ordenarMudancas (chart.mudancasTempo.map Prod.snd) ∧
    ticksParaSegundos chart 0 = chart.offset := by
  refine ⟨?_, ticksParaSegundos_zero chart⟩
  unfold mudancasTempoOrdenadas
  cases hl : ordenarMudancas (chart.mudancasTempo.map Prod.snd) with
  | nil => rfl
  | cons e r =>
    have he : e.tick ≠ 0 := by
      rw [hl] at h
      simpa using h
    simp [he]

/-- Testemunha de C8: chart concreto cujo primeiro evento de tempo está no
tick 384. -/
theorem claim_C8_sintetiza_evento_zero_witness :
    mudancasTempoOrdenadas chartExemploSemZero =
      ⟨0, 120000⟩ ::
        ordenarMudancas (chartExemploSemZero.mudancasTempo.map Prod.snd) ∧
    ticksParaSegundos chartExemploSemZero 0 = chartExemploSemZero.offset :=
  claim_C8_sintetiza_evento_zero chartExemploSemZero (by decide)

/-- C1: para todo chart com resolução positiva e exatamente um segmento de tempo
(um único evento no tick 0 com BPM = v/1000 > 0), e todo tick de `int` com
`0 ≤ tick`, vale exatamente
`ticksParaSegundos(tick) = offset + tick/resolução × (60/BPM)`. -/
theorem claim_C1_tempo_unico (chart : DadosChart) (v tick : ℤ)
    (hm : chart.mudancasTempo = [(0, ⟨0, v⟩)]) (hv : 0 < v)
    (hres : 0 < chart.resolucao) (h0 : 0 ≤ tick) (h1 : tick ≤ intMaxC) :
    ticksParaSegundos chart tick =
      chart.offset +
        (tick : ℚ) / (chart.resolucao : ℚ) * (60 / ((v : ℚ) / 1000)) := by
  have hord : mudancasTempoOrdenadas chart = [⟨0, v⟩] := by
    unfold mudancasTempoOrdenadas
    rw [hm]
    simp [ordenarMudancas, insereMudancaOrdenada]
  have hvq : (0 : ℚ) < (v : ℚ) / 1000 := by
    have : (0 : ℚ) < (v : ℚ) := by exact_mod_cast hv
    positivity
  have hmu : MudancaTempo.obterMicrossegundosPorBatida ⟨0, v⟩ =
      60000000 / ((v : ℚ) / 1000) := by
    unfold MudancaTempo.obterMicrossegundosPorBatida MudancaTempo.obterBPM
    exact if_neg (not_le.mpr hvq)
  unfold ticksParaSegundos
  rw [hord, somaLoop]
  simp only [proximoTick]
  rw [min_eq_left h1, hmu]
  have hv0 : (v : ℚ) ≠ 0 := by positivity
  have hr0 : (chart.resolucao : ℚ) ≠ 0 := by
    exact_mod_cast hres.ne'
  split_ifs with hA hB hC hD
  · exact absurd hA (by omega)
  · exact absurd hB.2 (by omega)
  · exact absurd hC (by omega)
  · push_cast
    field_simp
    ring
  · exact absurd (le_refl tick) hD

/-- Testemunha de C1: chart de um só tempo (120 BPM, resolução 192), tick 192 —
meio segundo. -/
theorem claim_C1_tempo_unico_witness :
    ticksParaSegundos chartExemploUnico 192 =
      chartExemploUnico.offset +
        (192 : ℚ) / (chartExemploUnico.resolucao : ℚ) * (60 / ((120000 : ℚ) / 1000)) :=
  claim_C1_tempo_unico chartExemploUnico 120000 192 rfl (by decide) (by decide)
    (by decide) (by decide)

/-- C3 (defeito no código): o bônus de conclusão de sustain é inalcançável. O
passo por nota de `atualizarSustainParaJogador` nunca muda `sustainCompleto` e
concede no máximo 1 ponto por tique — nunca os 20 do bônus: o ramo de conclusão
exige `t > sustainEndSec` com `sustainAtivo = true`, mas o mesmo passo acabou de
pôr `sustainAtivo := false` sempre que `t > sustainEndSec` (os dois testes são
mutuamente exclusivos). A segunda parte avalia o cenário da afirmação — tecla
segura por todo o intervalo [0 s, 2 s], tiques em t = 1 e t = 3 — e a nota
termina com `sustainComplete = false` e apenas 1 ponto de gotejo, sem bônus. -/
theorem claim_C3_bonus_sustain_inalcancavel :
    (∀ (tecla : Bool) (t dt : ℚ) (nota : Nota),
        ((atualizarSustainUmaNota tecla t dt nota).1).sustainCompleto =
          nota.sustainCompleto ∧
        ((atualizarSustainUmaNota tecla t dt nota).2 = 0 ∨
         (atualizarSustainUmaNota tecla t dt nota).2 = 1)) ∧
    trajetoriaSustainExemplo.1.sustainCompleto = false ∧
    trajetoriaSustainExemplo.2 = 1 := by
  refine ⟨?_, ?_, ?_⟩
  · intro tecla t dt nota
    by_cases h1 : nota.ehNotaLonga = false ∨ nota.sustainCompleto = true ∨
        nota.perdida = true ∨ nota.naTela = false ∨ nota.acertada = false
    · simp [atualizarSustainUmaNota, h1]
    · by_cases hc : tecla = true ∧ nota.timestampSec ≤ t ∧ t ≤ nota.tempoFimSustainSec
      · have hnc : ¬ nota.tempoFimSustainSec < t := not_lt.mpr hc.2.2
        by_cases hp : nota.tempoAteProximaParticulaSustain - dt ≤ 0
        · simp [atualizarSustainUmaNota, h1, hc, hp, hnc]
        · simp [atualizarSustainUmaNota, h1, hc, hp, hnc]
      · simp [atualizarSustainUmaNota, h1, hc]
  · norm_num [trajetoriaSustainExemplo, notaExemploSustain, atualizarSustainUmaNota]
  · norm_num [trajetoriaSustainExemplo, notaExemploSustain, atualizarSustainUmaNota]

/-- Valor explícito da nota de exemplo de C4 depois do passo de atualização do
motor em t = 0: posição fresca 1100 − 0.199999 × 800 = 1175001/1250 e na tela. -/
theorem notaExemploC4_eq :
    notaExemploC4 =
      { timestampSec := 199999 / 1000000, pista := 0, posicaoY := 1175001 / 1250,
        naTela := true } := by
  unfold notaExemploC4 atualizarNotaLogica atualizarVisibilidadeNota
    verificarNotaPerdida
  norm_num [Y_ZONA_ACERTO, VELOCIDADE_QUEDA_NOTA_PPS, ALTURA_NOTA, ALTURA_JANELA,
    ALTURA_ZONA_ACERTO, TOLERANCIA_ACERTO_MS]

/-- C4 (contraexemplo): uma nota não longa na pista 0 com
`|timestampSec − t| = 0.199999 s` em `t = 0`, com posição e visibilidade recém
atualizadas pelo próprio motor (está na tela, não acertada, não perdida), NÃO é
acertada pelo aperto — refutando «a 0.199999 s o aperto registra acerto». -/
theorem claim_C4_contraexemplo :
    |notaExemploC4.timestampSec - 0| = 199999 / 1000000 ∧
    notaExemploC4.naTela = true ∧ notaExemploC4.acertada = false ∧
    notaExemploC4.perdida = false ∧
    verificarAcertoNota 0 0 [notaExemploC4] = ([notaExemploC4], 0, false) := by
  rw [notaExemploC4_eq]
  refine ⟨by norm_num, rfl, rfl, rfl, ?_⟩
  have hcond : condicaoAcertoNota 0 0
      { timestampSec := 199999 / 1000000, pista := 0, posicaoY := 1175001 / 1250,
        naTela := true } = false := by
    unfold condicaoAcertoNota
    have : ¬(Y_ZONA_ACERTO - ALTURA_NOTA ≤ (1175001 / 1250 : ℚ)) := by
      norm_num [Y_ZONA_ACERTO, ALTURA_NOTA]
    simp [this]
  simp [verificarAcertoNota, hcond]

/-- C4 (emendada): com `|timestampSec − t| = 0.200001 s` o aperto não registra
acerto (a tolerância de 200 ms falha); com `|timestampSec − t| = 0.199999 s` e a
posição da nota recém derivada de `t` (como o motor a deixa), o aperto TAMBÉM não
registra acerto, porque a banda da zona de acerto
(`posicaoY ∈ [hitZoneY − 45, hitZoneY + 120]`, isto é,
`timestampSec − t ∈ [−0.15 s, +0.05625 s]`) falha nos dois sinais. -/
theorem claim_C4_emendada (nota : Nota) (pista : ℤ) (t : ℚ)
    (hfresh : nota.posicaoY =
      Y_ZONA_ACERTO - (nota.timestampSec - t) * VELOCIDADE_QUEDA_NOTA_PPS)
    (hdelta : |nota.timestampSec - t| = 200001 / 1000000 ∨
              |nota.timestampSec - t| = 199999 / 1000000) :
    verificarAcertoNota pista t [nota] = ([nota], 0, false) := by
  have hcond : condicaoAcertoNota pista t nota = false := by
    unfold condicaoAcertoNota
    rcases hdelta with h | h
    · have hne : ¬(|nota.timestampSec - t| * 1000 ≤ TOLERANCIA_ACERTO_MS) := by
        rw [h]
        norm_num [TOLERANCIA_ACERTO_MS]
      simp [hne]
    · rcases (abs_eq (by norm_num)).mp h with h1 | h1
      · have hne : ¬(Y_ZONA_ACERTO - ALTURA_NOTA ≤ nota.posicaoY) := by
          rw [hfresh, h1]
          norm_num [Y_ZONA_ACERTO, ALTURA_NOTA, VELOCIDADE_QUEDA_NOTA_PPS]
        simp [hne]
      · have hne : ¬(nota.posicaoY ≤ Y_ZONA_ACERTO + ALTURA_ZONA_ACERTO + ALTURA_NOTA) := by
          rw [hfresh, h1]
          norm_num [Y_ZONA_ACERTO, ALTURA_NOTA, ALTURA_ZONA_ACERTO,
            VELOCIDADE_QUEDA_NOTA_PPS]
        simp [hne]
  simp [verificarAcertoNota, hcond]

/-- Testemunha de C4 emendada, na nota de exemplo com posição fresca. -/
theorem claim_C4_emendada_witness :
    notaExemploC4.posicaoY =
      Y_ZONA_ACERTO - (notaExemploC4.timestampSec - 0) * VELOCIDADE_QUEDA_NOTA_PPS ∧
    verificarAcertoNota 5 0 [notaExemploC4] = ([notaExemploC4], 0, false) :=
  ⟨by rw [notaExemploC4_eq]; norm_num [Y_ZONA_ACERTO, VELOCIDADE_QUEDA_NOTA_PPS],
   claim_C4_emendada notaExemploC4 5 0
     (by rw [notaExemploC4_eq]; norm_num [Y_ZONA_ACERTO, VELOCIDADE_QUEDA_NOTA_PPS])
     (Or.inr (by rw [notaExemploC4_eq]; norm_num))⟩

/-- Valor explícito da nota de exemplo de C7 depois do passo de atualização do
motor em t = 10: exatamente sobre a zona de acerto (posição 1100) e na tela. -/
theorem notaExemploC7_eq :
    notaExemploC7 = { timestampSec := 10, pista := 2, posicaoY := 1100,
                      naTela := true } := by
  unfold notaExemploC7 atualizarNotaLogica atualizarVisibilidadeNota
    verificarNotaPerdida
  norm_num [Y_ZONA_ACERTO, VELOCIDADE_QUEDA_NOTA_PPS, ALTURA_NOTA, ALTURA_JANELA,
    ALTURA_ZONA_ACERTO, TOLERANCIA_ACERTO_MS]

/-- C7 (contraexemplo): um aperto na pista 2 em `t = 10 s` acerta a nota curta de
exemplo (pontuação sobe 10 e a nota fica `acertada`), mas a trava
`pistaPermiteAcertoNotaCurta[2]` permanece `true` — não é armada como a
afirmação exige. -/
theorem claim_C7_contraexemplo :
    (processarTeclaPressJogador jogadorExemploC7 [notaExemploC7] 2 10).2.map
        Nota.acertada = [true] ∧
    (processarTeclaPressJogador jogadorExemploC7 [notaExemploC7] 2 10).1.pontuacao = 10 ∧
    (processarTeclaPressJogador jogadorExemploC7 [notaExemploC7] 2 10).1.pistaPermiteAcertoNotaCurta 2 = true := by
  rw [notaExemploC7_eq]
  have hcond : condicaoAcertoNota 2 10
      { timestampSec := 10, pista := 2, posicaoY := 1100, naTela := true } = true := by
    unfold condicaoAcertoNota
    norm_num [Y_ZONA_ACERTO, ALTURA_NOTA, ALTURA_ZONA_ACERTO, TOLERANCIA_ACERTO_MS]
  refine ⟨?_, ?_, ?_⟩ <;>
    simp [processarTeclaPressJogador, jogadorExemploC7, verificarAcertoNota, hcond]

/-- C7 (emendada): nenhum aperto de tecla arma a trava por pista — a varredura de
acerto devolve `false` fixo, e portanto `processarTeclaPress` deixa
`pistaPermiteAcertoNotaCurta` exatamente como estava, para todo estado e toda
pista; a soltura de tecla põe a trava da pista em `true`. -/
theorem claim_C7_emendada (jog : Jogador) (notas : List Nota) (pista p : ℤ) (t : ℚ) :
    (processarTeclaPressJogador jog notas pista t).1.pistaPermiteAcertoNotaCurta p =
      jog.pistaPermiteAcertoNotaCurta p ∧
    (processarTeclaReleaseJogador jog pista).pistaPermiteAcertoNotaCurta pista = true := by
  constructor
  · unfold processarTeclaPressJogador
    have hfalse := verificarAcertoNota_retorna_false pista t notas
    simp only [hfalse, Bool.false_eq_true, if_false]
    split_ifs <;> rfl
  · unfold processarTeclaReleaseJogador
    simp

/-- Microssegundos por batida nunca são negativos: 0 no caso degenerado, senão
um quociente de positivos. -/
theorem micros_nonneg (m : MudancaTempo) :
    0 ≤ m.obterMicrossegundosPorBatida := by
  unfold MudancaTempo.obterMicrossegundosPorBatida
  split_ifs with h
  · exact le_refl 0
  · have : 0 < m.obterBPM := lt_of_not_ge h
    positivity

/-- Numa cadeia estritamente crescente, a cabeça é menor que todos os demais. -/
theorem cabeca_menor_que_todos :
    ∀ (e : MudancaTempo) (r : List MudancaTempo),
      List.Chain' (fun a b => a.tick < b.tick) (e :: r) →
      ∀ x ∈ r, e.tick < x.tick := by
  intro e r
  induction r generalizing e with
  | nil => intro _ x hx; cases hx
  | cons y r2 ih =>
    intro hch x hx
    obtain ⟨hey, hch2⟩ := List.chain'_cons.mp hch
    rcases List.mem_cons.mp hx with rfl | hx2
    · exact hey
    · exact lt_trans hey (ih y hch2 x hx2)

/-- Inserção ordenada numa lista cuja cabeça já é maior ou igual: identidade
no primeiro passo. -/
theorem ordenarMudancas_sorted_id :
    ∀ L : List MudancaTempo,
      List.Chain' (fun a b => a.tick ≤ b.tick) L → ordenarMudancas L = L := by
  intro L
  induction L with
  | nil => intro _; rfl
  | cons x r ih =>
    intro hch
    have hr : ordenarMudancas r = r := ih hch.tail
    unfold ordenarMudancas
    rw [hr]
    cases r with
    | nil => rfl
    | cons y r2 =>
      have hxy : x.tick ≤ y.tick := (List.chain'_cons.mp hch).1
      unfold insereMudancaOrdenada
      rw [if_pos hxy]

/-- Cadeia dos valores do mapa, herdada da cadeia das chaves quando cada valor
guarda o tick da sua chave. -/
theorem cadeia_valores (l : List (ℤ × MudancaTempo))
    (h1 : List.Chain' (fun a b => a.1 < b.1) l)
    (h2 : ∀ p ∈ l, p.2.tick = p.1) :
    List.Chain' (fun a b => a.tick < b.tick) (l.map Prod.snd) := by
  induction l with
  | nil => simp
  | cons p r ih =>
    cases r with
    | nil => simp
    | cons q r2 =>
      rw [List.map_cons, List.map_cons]
      refine List.chain'_cons.mpr ⟨?_, ?_⟩
      · rw [h2 p (List.mem_cons_self p _), h2 q (List.mem_cons_of_mem p (List.mem_cons_self q _))]
        exact (List.chain'_cons.mp h1).1
      · rw [← List.map_cons]
        exact ih (List.chain'_cons.mp h1).2 fun p2 hp2 => h2 p2 (List.mem_cons_of_mem p hp2)

/-- Estrutura da lista da CalculadoraTempo para um chart bem formado: ela é bem
formada (ticks crescentes e na faixa de `int`) e começa no tick 0. -/
theorem ordenadas_ok (chart : DadosChart) (h : ChartBemFormado chart) :
    TicksOK (mudancasTempoOrdenadas chart) ∧
    ∃ e r, mudancasTempoOrdenadas chart = e :: r ∧ e.tick = 0 := by
  obtain ⟨hk, hv⟩ := h
  have hchain : List.Chain' (fun a b => a.tick < b.tick)
      (chart.mudancasTempo.map Prod.snd) :=
    cadeia_valores chart.mudancasTempo hk fun p hp => (hv p hp).1
  have hbounds : ∀ e ∈ chart.mudancasTempo.map Prod.snd,
      0 ≤ e.tick ∧ e.tick ≤ intMaxC := by
    intro e he
    obtain ⟨p, hp, rfl⟩ := List.mem_map.mp he
    rw [(hv p hp).1]
    exact (hv p hp).2
  have hid : ordenarMudancas (chart.mudancasTempo.map Prod.snd) =
      chart.mudancasTempo.map Prod.snd :=
    ordenarMudancas_sorted_id _ (hchain.imp fun _ _ hlt => le_of_lt hlt)
  cases hl : chart.mudancasTempo.map Prod.snd with
  | nil =>
    have hord : mudancasTempoOrdenadas chart = [⟨0, 120000⟩] := by
      simp only [mudancasTempoOrdenadas, hl, ordenarMudancas]
    rw [hord]
    refine ⟨⟨?_, ?_⟩, ⟨0, 120000⟩, [], rfl, rfl⟩
    · simp
    · intro e he
      rcases List.mem_singleton.mp he with rfl
      exact ⟨le_refl 0, by decide⟩
  | cons e r =>
    rw [hl] at hchain hbounds hid
    by_cases he0 : e.tick = 0
    · have hord : mudancasTempoOrdenadas chart = e :: r := by
        simp only [mudancasTempoOrdenadas, hl, hid]
        simp [he0]
      rw [hord]
      exact ⟨⟨hchain, hbounds⟩, e, r, rfl, he0⟩
    · have hord : mudancasTempoOrdenadas chart = ⟨0, 120000⟩ :: e :: r := by
        simp only [mudancasTempoOrdenadas, hl, hid]
        simp [he0]
      rw [hord]
      have hepos : 0 < e.tick :=
        lt_of_le_of_ne (hbounds e (List.mem_cons_self e r)).1 (Ne.symm he0)
      refine ⟨⟨?_, ?_⟩, ⟨0, 120000⟩, e :: r, rfl, rfl⟩
      · exact List.chain'_cons.mpr ⟨hepos, hchain⟩
      · intro x hx
        rcases List.mem_cons.mp hx with rfl | hx2
        · exact ⟨le_refl 0, by decide⟩
        · exact hbounds x hx2

/-- Soma de segmentos nula quando o alvo não passa do primeiro tick. -/
theorem somaSegmentos_eq_zero (res alvo : ℤ) :
    ∀ L : List MudancaTempo,
      List.Chain' (fun a b => a.tick < b.tick) L →
      (∀ e ∈ L, alvo ≤ e.tick) → alvo ≤ intMaxC →
      somaSegmentos res alvo L = 0 := by
  intro L
  induction L with
  | nil => intro _ _ _; rfl
  | cons e r ih =>
    intro hch hge hmax
    have he : alvo ≤ e.tick := hge e (List.mem_cons_self e r)
    have hp : alvo ≤ proximoTick r := by
      cases r with
      | nil => simpa [proximoTick] using hmax
      | cons e2 r2 =>
        simpa [proximoTick] using hge e2 (List.mem_cons_of_mem e (List.mem_cons_self e2 r2))
    unfold somaSegmentos
    rw [ih hch.tail (fun x hx => hge x (List.mem_cons_of_mem e hx)) hmax]
    have hz : min alvo (proximoTick r) - min alvo e.tick = 0 := by omega
    rw [hz]
    push_cast
    ring

/-- O laço de `ticksParaSegundos` coincide com a forma fechada `somaSegmentos`
quando a resolução não é 0, o alvo é não negativo, a lista é bem formada e o
`tickAtual` de entrada é `min alvo (tick da cabeça)`. -/
theorem somaLoop_eq_soma (res : ℤ) (off : ℚ) (alvo : ℤ) (hres : res ≠ 0)
    (halvo : 0 ≤ alvo) :
    ∀ L : List MudancaTempo, TicksOK L → ∀ (acc : ℚ) (cur : ℤ),
      (∀ e r, L = e :: r → cur = min alvo e.tick) →
      somaLoop res off alvo L cur acc = acc + off + somaSegmentos res alvo L := by
  intro L
  induction L with
  | nil =>
    intro _ acc cur _
    unfold somaLoop somaSegmentos
    ring
  | cons e r ih =>
    intro hOK acc cur hc
    obtain ⟨hchain, hbound⟩ := hOK
    have hcur : cur = min alvo e.tick := hc e r rfl
    have hbe := hbound e (List.mem_cons_self e r)
    have hep : e.tick ≤ proximoTick r := by
      cases r with
      | nil => simpa [proximoTick] using hbe.2
      | cons e2 r2 =>
        simpa [proximoTick] using le_of_lt (List.chain'_cons.mp hchain).1
    have hge_r : ∀ x ∈ r, e.tick < x.tick := cabeca_menor_que_todos e r hchain
    simp only [somaLoop]
    rw [hcur]
    have hseg0 : 0 ≤ min alvo (proximoTick r) - min alvo e.tick := by omega
    by_cases hbrk : min alvo (proximoTick r) - min alvo e.tick ≤ 0 ∧ 0 < alvo ∧
        alvo ≤ min alvo e.tick
    · rw [if_pos hbrk]
      have hea : alvo ≤ e.tick := by omega
      have hz : somaSegmentos res alvo (e :: r) = 0 := by
        refine somaSegmentos_eq_zero res alvo (e :: r) hchain ?_ (by omega)
        intro x hx
        rcases List.mem_cons.mp hx with rfl | hx2
        · exact hea
        · exact le_of_lt (lt_of_le_of_lt hea (hge_r x hx2))
      rw [hz]
      ring
    · rw [if_neg hbrk]
      have hc2 : ¬(¬(min alvo (proximoTick r) - min alvo e.tick ≤ 0 ∧ 0 < alvo) ∧
          min alvo (proximoTick r) - min alvo e.tick < 0) := by
        intro hx
        omega
      rw [if_neg hc2, if_neg hres]
      by_cases hfim : alvo ≤ min alvo (proximoTick r)
      · rw [if_pos hfim]
        have hzp : alvo ≤ proximoTick r := by omega
        have hz : somaSegmentos res alvo r = 0 := by
          cases r with
          | nil => rfl
          | cons e2 r2 =>
            have hpe2 : alvo ≤ e2.tick := by simpa [proximoTick] using hzp
            refine somaSegmentos_eq_zero res alvo (e2 :: r2)
              (List.chain'_cons.mp hchain).2 ?_ ?_
            · intro x hx
              rcases List.mem_cons.mp hx with rfl | hx2
              · exact hpe2
              · have h2x : e2.tick < x.tick :=
                  cabeca_menor_que_todos e2 r2 (List.chain'_cons.mp hchain).2 x hx2
                omega
            · have := hbound e2 (List.mem_cons_of_mem e (List.mem_cons_self e2 r2))
              omega
        rw [somaSegmentos, hz]
        ring
      · rw [if_neg hfim]
        have hr2 : somaLoop res off alvo r (min alvo (proximoTick r))
            (acc + ((min alvo (proximoTick r) - min alvo e.tick : ℤ) : ℚ) *
              (e.obterMicrossegundosPorBatida / (res : ℚ) / 1000000)) =
            (acc + ((min alvo (proximoTick r) - min alvo e.tick : ℤ) : ℚ) *
              (e.obterMicrossegundosPorBatida / (res : ℚ) / 1000000)) + off +
              somaSegmentos res alvo r := by
          refine ih ⟨hchain.tail, ?_⟩ _ _ ?_
          · intro x hx
            exact hbound x (List.mem_cons_of_mem e hx)
          · intro e2 rr h2
            rw [h2]
            rfl
        rw [hr2, somaSegmentos]
        ring

/-- Monotonia da forma fechada no alvo. -/
theorem somaSegmentos_mono (res : ℤ) (hres : 0 < res) (a b : ℤ) (hab : a ≤ b) :
    ∀ L : List MudancaTempo,
      List.Chain' (fun x y => x.tick < y.tick) L →
      (∀ e ∈ L, e.tick ≤ intMaxC) →
      somaSegmentos res a L ≤ somaSegmentos res b L := by
  intro L
  induction L with
  | nil => intro _ _; exact le_refl 0
  | cons e r ih =>
    intro hch hmax
    have hep : e.tick ≤ proximoTick r := by
      cases r with
      | nil => simpa [proximoTick] using hmax e (List.mem_cons_self e [])
      | cons e2 r2 =>
        simpa [proximoTick] using le_of_lt (List.chain'_cons.mp hch).1
    have hs : 0 ≤ e.obterMicrossegundosPorBatida / (res : ℚ) / 1000000 := by
      have h1 := micros_nonneg e
      have h2 : (0 : ℚ) < (res : ℚ) := by exact_mod_cast hres
      positivity
    have hint : (min a (proximoTick r) - min a e.tick : ℤ) ≤
        (min b (proximoTick r) - min b e.tick : ℤ) := by omega
    have hterm := mul_le_mul_of_nonneg_right (Int.cast_le.mpr hint) hs
    have hrec := ih hch.tail fun x hx => hmax x (List.mem_cons_of_mem e hx)
    calc somaSegmentos res a (e :: r)
        = ((min a (proximoTick r) - min a e.tick : ℤ) : ℚ) *
            (e.obterMicrossegundosPorBatida / (res : ℚ) / 1000000) +
          somaSegmentos res a r := rfl
      _ ≤ ((min b (proximoTick r) - min b e.tick : ℤ) : ℚ) *
            (e.obterMicrossegundosPorBatida / (res : ℚ) / 1000000) +
          somaSegmentos res b r := add_le_add hterm hrec
      _ = somaSegmentos res b (e :: r) := rfl

/-- Conversão igual à forma fechada, para charts bem formados. -/
theorem ticksParaSegundos_eq_soma (chart : DadosChart) (h : ChartBemFormado chart)
    (hres : chart.resolucao ≠ 0) (alvo : ℤ) (h0 : 0 ≤ alvo) :
    ticksParaSegundos chart alvo =
      chart.offset + somaSegmentos chart.resolucao alvo (mudancasTempoOrdenadas chart) := by
  obtain ⟨hOK, e, r, heq, htick⟩ := ordenadas_ok chart h
  unfold ticksParaSegundos
  rw [heq] at hOK ⊢
  have hcur : ∀ e2 r2, (e :: r) = e2 :: r2 → (0 : ℤ) = min alvo e2.tick := by
    intro e2 r2 h2
    cases h2
    omega
  rw [somaLoop_eq_soma chart.resolucao chart.offset alvo hres h0 (e :: r) hOK 0 0 hcur]
  ring

/-- C2: `ticksToSeconds` é monotônica não decrescente no tick, para todo chart
bem formado com resolução positiva e pelo menos um evento de tempo, e ticks
`0 ≤ a ≤ b`. -/
theorem claim_C2_monotonia (chart : DadosChart) (h : ChartBemFormado chart)
    (hres : 0 < chart.resolucao) (_hne : chart.mudancasTempo ≠ []) (a b : ℤ)
    (h0 : 0 ≤ a) (hab : a ≤ b) :
    ticksParaSegundos chart a ≤ ticksParaSegundos chart b := by
  rw [ticksParaSegundos_eq_soma chart h hres.ne' a h0,
    ticksParaSegundos_eq_soma chart h hres.ne' b (le_trans h0 hab)]
  obtain ⟨⟨hchain, hbound⟩, _⟩ := ordenadas_ok chart h
  have := somaSegmentos_mono chart.resolucao hres a b hab
    (mudancasTempoOrdenadas chart) hchain fun e he => (hbound e he).2
  linarith

/-- dropWhile é identidade quando a cabeça não satisfaz o predicado. -/
theorem dropWhile_eq_self_de_cabeca (p : Char → Bool) (l : List Char)
    (h : ∀ c, l.head? = some c → p c = false) : l.dropWhile p = l := by
  cases l with
  | nil => rfl
  | cons c cs => simp [List.dropWhile_cons, h c rfl]

/-- aparar é identidade quando as duas pontas não são brancos de aparagem. -/
theorem aparar_eq_self (l : List Char)
    (h1 : ∀ c, l.head? = some c → ehBrancoTrim c = false)
    (h2 : ∀ c, l.getLast? = some c → ehBrancoTrim c = false) : aparar l = l := by
  unfold aparar
  rw [dropWhile_eq_self_de_cabeca _ _ h1]
  rw [dropWhile_eq_self_de_cabeca _ _ ?hrev]
  · exact List.reverse_reverse l
  case hrev =>
    intro c hc
    rw [List.head?_reverse] at hc
    exact h2 c hc

/-- Todo erro de `stoiEx` é `numeroMalformado`. -/
theorem stoiEx_erro (l : List Char) (e : ErroParse) (h : stoiEx l = .error e) :
    e = .numeroMalformado := by
  simp only [stoiEx] at h
  split_ifs at h <;> first | (cases h; rfl) | exact Except.noConfusion h

/-- Todo erro de `stodEx` é `numeroMalformado`. -/
theorem stodEx_erro (l : List Char) (e : ErroParse) (h : stodEx l = .error e) :
    e = .numeroMalformado := by
  simp only [stodEx] at h
  split_ifs at h <;> first | (cases h; rfl) | exact Except.noConfusion h

/-- Um `Except.map` que dá erro vem de um erro do argumento. -/
theorem map_erro {α β : Type} (f : α → β) (x : Except ErroParse α) (e : ErroParse)
    (h : x.map f = .error e) : x = .error e := by
  cases x <;> simp_all [Except.map]

/-- Decomposição de um `bind` que dá erro. -/
theorem bind_erro {α β : Type} (g : α → Except ErroParse β) (x : Except ErroParse α)
    (e : ErroParse) (h : x.bind g = .error e) :
    x = .error e ∨ ∃ a, x = .ok a ∧ g a = .error e := by
  cases x with
  | error e2 => simp_all [Except.bind]
  | ok a =>
    right
    exact ⟨a, rfl, by simpa [Except.bind] using h⟩

/-- Erro de um `bind` encabeçado por `stoiEx`. -/
theorem bind_stoi_erro {β : Type} (d : List Char) (g : ℤ → Except ErroParse β)
    (e : ErroParse) (h : (stoiEx d).bind g = .error e)
    (hg : ∀ a, g a = .error e → e = .numeroMalformado) : e = .numeroMalformado := by
  rcases bind_erro g (stoiEx d) e h with h2 | ⟨a, _, h3⟩
  · exact stoiEx_erro d e h2
  · exact hg a h3

/-- Todo erro do despacho da seção `Song` é `numeroMalformado`. -/
theorem aplicarChaveSong_erro (chart : DadosChart) (chave valor : List Char)
    (e : ErroParse) (h : aplicarChaveSong chart chave valor = .error e) :
    e = .numeroMalformado := by
  unfold aplicarChaveSong at h
  by_cases h1 : chave = chaveName
  · rw [if_pos h1] at h
    exact Except.noConfusion h
  rw [if_neg h1] at h
  by_cases h2 : chave = chaveArtist
  · rw [if_pos h2] at h
    exact Except.noConfusion h
  rw [if_neg h2] at h
  by_cases h3 : chave = chaveCharter
  · rw [if_pos h3] at h
    exact Except.noConfusion h
  rw [if_neg h3] at h
  by_cases h4 : chave = chaveAlbum
  · rw [if_pos h4] at h
    exact Except.noConfusion h
  rw [if_neg h4] at h
  by_cases h5 : chave = chaveYear
  · rw [if_pos h5] at h
    exact Except.noConfusion h
  rw [if_neg h5] at h
  by_cases h6 : chave = chaveGenre
  · rw [if_pos h6] at h
    exact Except.noConfusion h
  rw [if_neg h6] at h
  by_cases h7 : chave = chaveMediaType
  · rw [if_pos h7] at h
    exact Except.noConfusion h
  rw [if_neg h7] at h
  by_cases h8 : chave = chavePlayer2
  · rw [if_pos h8] at h
    exact Except.noConfusion h
  rw [if_neg h8] at h
  by_cases h9 : chave = chaveMusicStream
  · rw [if_pos h9] at h
    exact Except.noConfusion h
  rw [if_neg h9] at h
  by_cases h10 : chave = chaveOffset
  · rw [if_pos h10] at h
    exact stodEx_erro _ _ (map_erro _ _ _ h)
  rw [if_neg h10] at h
  by_cases h11 : chave = chaveResolution
  · rw [if_pos h11] at h
    exact stoiEx_erro _ _ (map_erro _ _ _ h)
  rw [if_neg h11] at h
  by_cases h12 : chave = chaveDifficulty
  · rw [if_pos h12] at h
    exact stoiEx_erro _ _ (map_erro _ _ _ h)
  rw [if_neg h12] at h
  by_cases h13 : chave = chavePreviewStart
  · rw [if_pos h13] at h
    exact stodEx_erro _ _ (map_erro _ _ _ h)
  rw [if_neg h13] at h
  by_cases h14 : chave = chavePreviewEnd
  · rw [if_pos h14] at h
    exact stodEx_erro _ _ (map_erro _ _ _ h)
  rw [if_neg h14] at h
  exact Except.noConfusion h

/-- Todo erro do processamento de linha em seção é `numeroMalformado`. -/
theorem processarLinhaNaSecao_erro (chart : DadosChart) (secao linha : List Char)
    (e : ErroParse) (h : processarLinhaNaSecao chart secao linha = .error e) :
    e = .numeroMalformado := by
  unfold processarLinhaNaSecao at h
  by_cases hS : secao = nomeSong
  · rw [if_pos hS] at h
    cases hK : kvMatch linha with
    | some par =>
      simp only [hK] at h
      exact aplicarChaveSong_erro _ _ _ _ h
    | none =>
      simp only [hK] at h
      exact Except.noConfusion h
  rw [if_neg hS] at h
  by_cases hT : secao = nomeSyncTrack
  · rw [if_pos hT] at h
    cases hB : matchTempoB linha with
    | some par =>
      simp only [hB] at h
      refine bind_stoi_erro _ _ _ h ?_
      intro a ha
      refine bind_stoi_erro _ _ _ ha ?_
      intro b hb
      exact Except.noConfusion hb
    | none =>
      simp only [hB] at h
      cases hTS : matchTS linha with
      | some tri =>
        obtain ⟨d1, d2, od3⟩ := tri
        simp only [hTS] at h
        refine bind_stoi_erro _ _ _ h ?_
        intro a ha
        refine bind_stoi_erro _ _ _ ha ?_
        intro b hb
        cases od3 with
        | some d3 =>
          simp only [] at hb
          refine bind_stoi_erro _ _ _ hb ?_
          intro c hc
          exact Except.noConfusion hc
        | none =>
          simp only [Except.bind] at hb
          exact Except.noConfusion hb
      | none =>
        simp only [hTS] at h
        exact Except.noConfusion h
  rw [if_neg hT] at h
  by_cases hN : secao = nomeExpertSingle ∨ secao = nomeHardSingle ∨
      secao = nomeMediumSingle ∨ secao = nomeEasySingle
  · rw [if_pos hN] at h
    cases hM : matchNota linha with
    | some tri =>
      obtain ⟨d1, d2, d3⟩ := tri
      simp only [hM] at h
      refine bind_stoi_erro _ _ _ h ?_
      intro a ha
      refine bind_stoi_erro _ _ _ ha ?_
      intro b hb
      refine bind_stoi_erro _ _ _ hb ?_
      intro c hc
      exact Except.noConfusion hc
    | none =>
      simp only [hM] at h
      exact Except.noConfusion h
  · rw [if_neg hN] at h
    exact Except.noConfusion h

/-- Todo erro de um passo de linha é `numeroMalformado`. -/
theorem passoLinha_erro (st : DadosChart × List Char) (l : List Char)
    (e : ErroParse) (h : passoLinha st l = .error e) : e = .numeroMalformado := by
  simp only [passoLinha] at h
  by_cases hA : aparar l = [] ∨ (aparar l).take 2 = ['/', '/']
  · rw [if_pos hA] at h
    exact Except.noConfusion h
  rw [if_neg hA] at h
  cases hS : secaoMatch (aparar l) with
  | some nova =>
    simp only [hS] at h
    exact Except.noConfusion h
  | none =>
    simp only [hS] at h
    by_cases hB : aparar l = [Char.ofNat 123] ∨ aparar l = [Char.ofNat 125]
    · rw [if_pos hB] at h
      exact Except.noConfusion h
    rw [if_neg hB] at h
    by_cases hC : st.2 ≠ []
    · rw [if_pos hC] at h
      exact processarLinhaNaSecao_erro _ _ _ _ (map_erro _ _ _ h)
    · rw [if_neg hC] at h
      exact Except.noConfusion h

/-- Todo erro do percurso de linhas é `numeroMalformado`. -/
theorem percorrerLinhas_erro :
    ∀ (L : List (List Char)) (st : DadosChart × List Char) (e : ErroParse),
      percorrerLinhas st L = .error e → e = .numeroMalformado := by
  intro L
  induction L with
  | nil =>
    intro st e h
    simp [percorrerLinhas] at h
  | cons l r ih =>
    intro st e h
    unfold percorrerLinhas at h
    cases hp : passoLinha st l with
    | error e2 =>
      rw [hp] at h
      cases h
      exact passoLinha_erro st l e hp
    | ok st2 =>
      rw [hp] at h
      exact ih st2 e h

/-- Percurso de uma concatenação: processa a primeira parte e, se não houve
erro, continua da segunda. -/
theorem percorrerLinhas_append (st : DadosChart × List Char)
    (A B : List (List Char)) :
    percorrerLinhas st (A ++ B) =
      match percorrerLinhas st A with
      | .error e => .error e
      | .ok st2 => percorrerLinhas st2 B := by
  induction A generalizing st with
  | nil => simp [percorrerLinhas]
  | cons l r ih =>
    simp only [List.cons_append, percorrerLinhas]
    cases hp : passoLinha st l with
    | error e => simp only [hp]
    | ok st2 =>
      simp only [hp]
      exact ih st2

/-- Um passo bem-sucedido numa linha que não é cabeçalho de seção preserva a
seção corrente. -/
theorem passo_preserva_secao (st : DadosChart × List Char) (l : List Char)
    (st2 : DadosChart × List Char) (hok : passoLinha st l = .ok st2)
    (hsec : secaoMatch (aparar l) = none) : st2.2 = st.2 := by
  simp only [passoLinha] at hok
  by_cases hA : aparar l = [] ∨ (aparar l).take 2 = ['/', '/']
  · rw [if_pos hA] at hok
    cases hok
    rfl
  rw [if_neg hA] at hok
  simp only [hsec] at hok
  by_cases hB : aparar l = [Char.ofNat 123] ∨ aparar l = [Char.ofNat 125]
  · rw [if_pos hB] at hok
    cases hok
    rfl
  rw [if_neg hB] at hok
  by_cases hC : st.2 ≠ []
  · rw [if_pos hC] at hok
    cases hpr : processarLinhaNaSecao st.1 st.2 (aparar l) with
    | error e =>
      rw [hpr] at hok
      exact Except.noConfusion hok
    | ok c =>
      rw [hpr] at hok
      simp only [Except.map] at hok
      cases hok
      rfl
  · rw [if_neg hC] at hok
    cases hok
    rfl

/-- Passo de avanço de `kvGo`: quando o corte logo após a chave corrente não
encontra `=`, a chave preguiçosa cresce um caractere. -/
theorem kvGo_avanca (chaveRev : List Char) (c : Char) (cs : List Char)
    (hc1 : ehQuebraLinha c = false)
    (hc2 : ∀ d rest, cs.dropWhile ehBrancoRegex = d :: rest → d ≠ '=') :
    kvGo chaveRev (c :: cs) = kvGo (c :: chaveRev) cs := by
  conv_lhs => rw [kvGo]
  rw [if_neg (by simp [hc1])]
  cases hd : cs.dropWhile ehBrancoRegex with
  | nil => simp only [hd]
  | cons d rest =>
    simp only [hd]
    rw [if_neg (hc2 d rest hd)]

/-- Passo de fechamento de `kvGo`: o corte encontra `=` e um valor não vazio sem
terminadores de linha. -/
theorem kvGo_fecha (chaveRev : List Char) (c : Char) (cs depois : List Char)
    (hc1 : ehQuebraLinha c = false)
    (hd : cs.dropWhile ehBrancoRegex = '=' :: depois)
    (hv1 : depois.dropWhile ehBrancoRegex ≠ [])
    (hv2 : (depois.dropWhile ehBrancoRegex).all (fun ch => !ehQuebraLinha ch) = true) :
    kvGo chaveRev (c :: cs) =
      some ((c :: chaveRev).reverse, depois.dropWhile ehBrancoRegex) := by
  conv_lhs => rw [kvGo]
  rw [if_neg (by simp [hc1])]
  simp only [hd]
  rw [if_pos trivial, if_pos ⟨hv1, hv2⟩]

/-- Cauda do corte por brancos quando a cabeça não é branco e difere de `=`. -/
theorem corte_nao_igual (c0 : Char) (cs0 : List Char)
    (h1 : ehBrancoRegex c0 = false) (h2 : c0 ≠ '=') :
    ∀ d rest, ((c0 :: cs0).dropWhile ehBrancoRegex) = d :: rest → d ≠ '=' := by
  intro d rest h
  rw [List.dropWhile_cons, if_neg (by simp [h1])] at h
  cases h
  exact h2

/-- Casamento de `Chave = Valor` na linha `Offset = v`, para `v` não vazio, sem
branco à esquerda e sem terminadores de linha: chave `Offset`, valor `v`. -/
theorem kvMatch_linhaOffset (v : List Char) (hv1 : v ≠ [])
    (hv2 : ∀ c, v.head? = some c → ehBrancoRegex c = false)
    (hv4 : v.all (fun ch => !ehQuebraLinha ch) = true) :
    kvMatch (linhaOffset v) = some (chaveOffset, v) := by
  have hvdrop : v.dropWhile ehBrancoRegex = v :=
    dropWhile_eq_self_de_cabeca _ _ hv2
  have hesp : ((' ' : Char) :: v).dropWhile ehBrancoRegex = v := by
    rw [List.dropWhile_cons, if_pos (by decide)]
    exact hvdrop
  unfold kvMatch linhaOffset
  simp only [List.cons_append, List.nil_append]
  rw [show (('O' :: 'f' :: 'f' :: 's' :: 'e' :: 't' :: ' ' :: '=' :: ' ' :: v).dropWhile
      ehBrancoRegex) = 'O' :: ('f' :: 'f' :: 's' :: 'e' :: 't' :: ' ' :: '=' :: ' ' :: v) by
    rw [List.dropWhile_cons, if_neg (by decide)]]
  rw [kvGo_avanca _ _ _ (by decide) (corte_nao_igual 'f' _ (by decide) (by decide))]
  rw [kvGo_avanca _ _ _ (by decide) (corte_nao_igual 'f' _ (by decide) (by decide))]
  rw [kvGo_avanca _ _ _ (by decide) (corte_nao_igual 's' _ (by decide) (by decide))]
  rw [kvGo_avanca _ _ _ (by decide) (corte_nao_igual 'e' _ (by decide) (by decide))]
  rw [kvGo_avanca _ _ _ (by decide) (corte_nao_igual 't' _ (by decide) (by decide))]
  have hd : ((' ' :: '=' :: ' ' :: v : List Char).dropWhile ehBrancoRegex) =
      '=' :: (' ' :: v) := by
    rw [List.dropWhile_cons, if_pos (by decide), List.dropWhile_cons,
      if_neg (by decide)]
  rw [kvGo_fecha _ _ _ _ (by decide) hd (by rw [hesp]; exact hv1)
    (by rw [hesp]; exact hv4)]
  rw [hesp]
  rfl

/-- Um passo sobre a linha de cabeçalho `[Song]` muda a seção para `Song`. -/
theorem passo_song (st : DadosChart × List Char) :
    passoLinha st secaoSongLinha = .ok (st.1, nomeSong) := by
  have h1 : aparar secaoSongLinha = secaoSongLinha := by decide
  have h2 : secaoMatch secaoSongLinha = some nomeSong := by decide
  simp only [passoLinha, h1, h2]
  rw [if_neg (by decide)]

/-- `secaoMatch` falha quando a linha não começa com `[`. -/
theorem secaoMatch_cons_ne (c : Char) (rest : List Char) (h : ¬ c = '[') :
    secaoMatch (c :: rest) = none := by
  unfold secaoMatch
  split
  · rename_i resto heq
    injection heq with h1 h2
    exact absurd h1 h
  · rfl

/-- O despacho da seção `Song` na chave `Offset` aplica `stodEx` ao valor. -/
theorem aplicarChaveSong_offset (chart : DadosChart) (valor : List Char) :
    aplicarChaveSong chart chaveOffset valor =
      (stodEx valor).map (fun q => { chart with offset := q }) := by
  unfold aplicarChaveSong
  rw [if_neg (by decide), if_neg (by decide), if_neg (by decide),
    if_neg (by decide), if_neg (by decide), if_neg (by decide),
    if_neg (by decide), if_neg (by decide), if_neg (by decide), if_pos rfl]

/-- Um passo na seção `Song` sobre a linha `Offset = v` com `v` rejeitado por
`stodEx` aborta com `numeroMalformado`. -/
theorem passo_offset_bad (chart : DadosChart) (v : List Char)
    (hv1 : v ≠ [])
    (hv2 : ∀ c, v.head? = some c → ehBrancoRegex c = false)
    (hv3 : ∀ c, v.getLast? = some c → ehBrancoTrim c = false)
    (hv4 : v.all (fun ch => !ehQuebraLinha ch) = true)
    (hstod : stodEx (removerAspas v) = .error .numeroMalformado) :
    passoLinha (chart, nomeSong) (linhaOffset v) = .error .numeroMalformado := by
  have hap : aparar (linhaOffset v) = linhaOffset v := by
    refine aparar_eq_self _ ?_ ?_
    · intro c hc
      rw [show (linhaOffset v).head? = some 'O' from rfl] at hc
      cases hc
      decide
    · intro c hc
      rw [show linhaOffset v =
          ['O', 'f', 'f', 's', 'e', 't', ' ', '=', ' '] ++ v from rfl,
        List.getLast?_append_of_ne_nil _ hv1] at hc
      exact hv3 c hc
  simp only [passoLinha, hap]
  rw [if_neg (by
    refine not_or.mpr ⟨?_, ?_⟩
    · simp [linhaOffset]
    · rw [show (linhaOffset v).take 2 = ['O', 'f'] from rfl]
      decide)]
  rw [show linhaOffset v = 'O' ::
      (['f', 'f', 's', 'e', 't', ' ', '=', ' '] ++ v) from rfl]
  rw [secaoMatch_cons_ne 'O' _ (by decide)]
  rw [if_neg (by simp)]
  rw [if_pos (by decide)]
  rw [show ('O' :: (['f', 'f', 's', 'e', 't', ' ', '=', ' '] ++ v)) =
      linhaOffset v from rfl]
  have hkv := kvMatch_linhaOffset v hv1 hv2 hv4
  unfold processarLinhaNaSecao
  rw [if_pos rfl]
  simp only [hkv]
  rw [aplicarChaveSong_offset, hstod]
  rfl

/-- Depois de entrar na seção `Song`, linhas sem cabeçalho de seção mantêm a
seção, e a linha `Offset = v` malformada aborta o percurso inteiro. -/
theorem percorrer_song_aborta (v : List Char)
    (hv1 : v ≠ [])
    (hv2 : ∀ c, v.head? = some c → ehBrancoRegex c = false)
    (hv3 : ∀ c, v.getLast? = some c → ehBrancoTrim c = false)
    (hv4 : v.all (fun ch => !ehQuebraLinha ch) = true)
    (hstod : stodEx (removerAspas v) = .error .numeroMalformado)
    (L3 : List (List Char)) :
    ∀ (L2 : List (List Char)) (chart : DadosChart),
      (∀ l ∈ L2, secaoMatch (aparar l) = none) →
      percorrerLinhas (chart, nomeSong) (L2 ++ linhaOffset v :: L3) =
        .error .numeroMalformado := by
  intro L2
  induction L2 with
  | nil =>
    intro chart _
    rw [List.nil_append]
    unfold percorrerLinhas
    rw [passo_offset_bad chart v hv1 hv2 hv3 hv4 hstod]
  | cons l r ih =>
    intro chart hsec
    rw [List.cons_append]
    unfold percorrerLinhas
    cases hp : passoLinha (chart, nomeSong) l with
    | error e =>
      have he := passoLinha_erro _ _ _ hp
      subst he
      rfl
    | ok st2 =>
      obtain ⟨c2, s2⟩ := st2
      have h2 : s2 = nomeSong :=
        passo_preserva_secao _ _ _ hp (hsec l (List.mem_cons_self l r))
      subst h2
      exact ih c2 fun l2 hl2 => hsec l2 (List.mem_cons_of_mem l hl2)

/-- Testemunha de C2 no chart de exemplo de um só tempo, com a = 0 e b = 192. -/
theorem claim_C2_monotonia_witness :
    ticksParaSegundos chartExemploUnico 0 ≤ ticksParaSegundos chartExemploUnico 192 :=
  claim_C2_monotonia chartExemploUnico
    ⟨by simp [chartExemploUnico],
     by
       intro p hp
       simp only [chartExemploUnico, List.mem_singleton] at hp
       subst hp
       exact ⟨rfl, le_refl 0, by decide⟩⟩
    (by decide) (by decide) 0 192 (by decide) (by decide)

/-- C5: para todo arquivo de chart cuja seção `Song` fornece texto não
numérico para uma chave numérica — aqui a linha `Offset = v` com `v`
rejeitado pelo modelo de `std::stod` — o parsing inteiro falha com
`numeroMalformado`, em vez de devolver um documento com valor parcial ou
padrão. As linhas `L2` entre o cabeçalho e a linha ofensora não abrem
nova seção, e `L3` é arbitrário. -/
theorem claim_C5_numero_malformado (v : List Char) (L2 L3 : List (List Char))
    (hv1 : v ≠ [])
    (hv2 : ∀ c, v.head? = some c → ehBrancoRegex c = false)
    (hv3 : ∀ c, v.getLast? = some c → ehBrancoTrim c = false)
    (hv4 : v.all (fun ch => !ehQuebraLinha ch) = true)
    (hstod : stodEx (removerAspas v) = .error .numeroMalformado)
    (hsec : ∀ l ∈ L2, secaoMatch (aparar l) = none) :
    fazerParsingChart (secaoSongLinha :: (L2 ++ linhaOffset v :: L3)) =
      .error .numeroMalformado := by
  have hs := passo_song (({} : DadosChart), ([] : List Char))
  have h1 : percorrerLinhas ({}, [])
      (secaoSongLinha :: (L2 ++ linhaOffset v :: L3)) =
      .error .numeroMalformado := by
    simp only [percorrerLinhas, hs]
    exact percorrer_song_aborta v hv1 hv2 hv3 hv4 hstod L3 L2 {} hsec
  unfold fazerParsingChart
  rw [if_neg (by simp), h1]

/-- Testemunha de C5 na linha concreta `Offset = notanumber`. -/
theorem claim_C5_numero_malformado_witness :
    fazerParsingChart (secaoSongLinha :: ([] ++ linhaOffset vNotanumber :: [])) =
      .error .numeroMalformado :=
  claim_C5_numero_malformado vNotanumber [] []
    (by decide)
    (by intro c hc; cases hc; decide)
    (by
      intro c hc
      rw [show vNotanumber.getLast? = some 'r' from by decide] at hc
      cases hc
      decide)
    (by decide)
    (by rfl)
    (by intro l hl; cases hl)

/-- Um dígito decimal não pertence à classe `\s`. -/
theorem digito_nao_branco (c : Char) (h : ehDigito c = true) :
    ehBrancoRegex c = false := by
  simp only [ehDigito, Bool.and_eq_true, decide_eq_true_eq] at h
  simp only [ehBrancoRegex, Bool.or_eq_false_iff, decide_eq_false_iff_not]
  omega

/-- Um dígito decimal não é branco de aparagem. -/
theorem digito_nao_brancoTrim (c : Char) (h : ehDigito c = true) :
    ehBrancoTrim c = false := by
  simp only [ehDigito, Bool.and_eq_true, decide_eq_true_eq] at h
  simp only [ehBrancoTrim, Bool.or_eq_false_iff, decide_eq_false_iff_not]
  omega

/-- Uma lista só de dígitos não começa por sinal. -/
theorem head_digitos_nao_sinal (dv : List Char)
    (h2 : ∀ c ∈ dv, ehDigito c = true) :
    dv.head? ≠ some '+' ∧ dv.head? ≠ some '-' :=
  ⟨fun hc => absurd (h2 _ (List.mem_of_mem_head? hc)) (by decide),
   fun hc => absurd (h2 _ (List.mem_of_mem_head? hc)) (by decide)⟩

/-- O laço de `valorDigitos` preserva não-negatividade do acumulador. -/
theorem foldl_digitos_nonneg (l : List Char) :
    ∀ n : ℤ, (∀ c ∈ l, ehDigito c = true) → 0 ≤ n →
      0 ≤ l.foldl (fun n c => 10 * n + ((c.toNat : ℤ) - 48)) n := by
  induction l with
  | nil => intro n _ hn; simpa using hn
  | cons c r ih =>
    intro n h hn
    rw [List.foldl_cons]
    refine ih _ (fun c2 hc2 => h c2 (List.mem_cons_of_mem c hc2)) ?_
    have hc := h c (List.mem_cons_self c r)
    simp only [ehDigito, Bool.and_eq_true, decide_eq_true_eq] at hc
    omega

/-- O valor decimal de uma lista de dígitos é não negativo. -/
theorem valorDigitos_nonneg (l : List Char) (h : ∀ c ∈ l, ehDigito c = true) :
    0 ≤ valorDigitos l :=
  foldl_digitos_nonneg l 0 h le_rfl

/-- `stoiEx` numa lista não vazia só de dígitos com valor dentro de `int`
devolve exatamente o valor decimal. -/
theorem stoiEx_digitos (dv : List Char) (h1 : dv ≠ [])
    (h2 : ∀ c ∈ dv, ehDigito c = true)
    (h3 : valorDigitos dv ≤ 2147483647) :
    stoiEx dv = .ok (valorDigitos dv) := by
  have hnb : dv.dropWhile ehBrancoRegex = dv :=
    dropWhile_eq_self_de_cabeca _ _ fun c hc =>
      digito_nao_branco c (h2 c (List.mem_of_mem_head? hc))
  have ht : dv.takeWhile ehDigito = dv := List.takeWhile_eq_self_iff.mpr h2
  have hsig := head_digitos_nao_sinal dv h2
  have hnn := valorDigitos_nonneg dv h2
  simp only [stoiEx, hnb]
  rw [if_neg hsig.1, if_neg hsig.2]
  dsimp only
  rw [ht, if_neg h1, one_mul, if_neg (by omega)]

/-- `matchTempoB` casa a linha `0 = B dv` quando `dv` é uma lista não vazia de
dígitos, devolvendo os grupos `0` e `dv`. -/
theorem matchTempoB_linha (dv : List Char) (h1 : dv ≠ [])
    (h2 : ∀ c ∈ dv, ehDigito c = true) :
    matchTempoB (linhaTempoB dv) = some (['0'], dv) := by
  have hnb : dv.dropWhile ehBrancoRegex = dv :=
    dropWhile_eq_self_de_cabeca _ _ fun c hc =>
      digito_nao_branco c (h2 c (List.mem_of_mem_head? hc))
  have h6 : (' ' :: dv).dropWhile ehBrancoRegex = dv := by
    rw [List.dropWhile_cons, if_pos (by decide)]; exact hnb
  have ht : dv.takeWhile ehDigito = dv := List.takeWhile_eq_self_iff.mpr h2
  have hdr : dv.dropWhile ehDigito = [] := List.dropWhile_eq_nil_iff.mpr h2
  have hstep : matchTempoB (linhaTempoB dv) =
      (if ((' ' :: dv).dropWhile ehBrancoRegex).takeWhile ehDigito ≠ [] ∧
          ((' ' :: dv).dropWhile ehBrancoRegex).dropWhile ehDigito = [] then
        some (['0'], ((' ' :: dv).dropWhile ehBrancoRegex).takeWhile ehDigito)
      else none) := rfl
  rw [hstep, h6, ht, hdr]
  rw [if_pos ⟨h1, rfl⟩]

/-- `matchTS` casa a linha `0 = TS dn` (sem denominador) quando `dn` é uma
lista não vazia de dígitos. -/
theorem matchTS_linha (dn : List Char) (h1 : dn ≠ [])
    (h2 : ∀ c ∈ dn, ehDigito c = true) :
    matchTS (linhaTS dn) = some (['0'], dn, none) := by
  have hnb : dn.dropWhile ehBrancoRegex = dn :=
    dropWhile_eq_self_de_cabeca _ _ fun c hc =>
      digito_nao_branco c (h2 c (List.mem_of_mem_head? hc))
  have h6 : (' ' :: dn).dropWhile ehBrancoRegex = dn := by
    rw [List.dropWhile_cons, if_pos (by decide)]; exact hnb
  have ht : dn.takeWhile ehDigito = dn := List.takeWhile_eq_self_iff.mpr h2
  have hdr : dn.dropWhile ehDigito = [] := List.dropWhile_eq_nil_iff.mpr h2
  have hstep : matchTS (linhaTS dn) =
      (if ((' ' :: dn).dropWhile ehBrancoRegex).takeWhile ehDigito = [] then none
       else
         match ((' ' :: dn).dropWhile ehBrancoRegex).dropWhile ehDigito with
         | [] => some (['0'],
             ((' ' :: dn).dropWhile ehBrancoRegex).takeWhile ehDigito, none)
         | c2 :: _ =>
           if ehBrancoRegex c2 then
             if ((((' ' :: dn).dropWhile ehBrancoRegex).dropWhile ehDigito).dropWhile
                   ehBrancoRegex).takeWhile ehDigito ≠ [] ∧
                 ((((' ' :: dn).dropWhile ehBrancoRegex).dropWhile ehDigito).dropWhile
                   ehBrancoRegex).dropWhile ehDigito = [] then
               some (['0'], ((' ' :: dn).dropWhile ehBrancoRegex).takeWhile ehDigito,
                 some (((((' ' :: dn).dropWhile ehBrancoRegex).dropWhile
                   ehDigito).dropWhile ehBrancoRegex).takeWhile ehDigito))
             else none
           else none) := rfl
  rw [hstep, h6, ht, hdr]
  rw [if_neg h1]

/-- `aparar` é identidade na linha `0 = B dv` com `dv` de dígitos. -/
theorem aparar_linhaTempoB (dv : List Char) (h1 : dv ≠ [])
    (h2 : ∀ c ∈ dv, ehDigito c = true) :
    aparar (linhaTempoB dv) = linhaTempoB dv := by
  refine aparar_eq_self _ ?_ ?_
  · intro c hc
    rw [show (linhaTempoB dv).head? = some '0' from rfl] at hc
    cases hc
    decide
  · intro c hc
    rw [show linhaTempoB dv = ['0', ' ', '=', ' ', 'B', ' '] ++ dv from rfl,
      List.getLast?_append_of_ne_nil _ h1] at hc
    exact digito_nao_brancoTrim c (h2 c (List.mem_of_mem_getLast? hc))

/-- `aparar` é identidade na linha `0 = TS dn` com `dn` de dígitos. -/
theorem aparar_linhaTS (dn : List Char) (h1 : dn ≠ [])
    (h2 : ∀ c ∈ dn, ehDigito c = true) :
    aparar (linhaTS dn) = linhaTS dn := by
  refine aparar_eq_self _ ?_ ?_
  · intro c hc
    rw [show (linhaTS dn).head? = some '0' from rfl] at hc
    cases hc
    decide
  · intro c hc
    rw [show linhaTS dn = ['0', ' ', '=', ' ', 'T', 'S', ' '] ++ dn from rfl,
      List.getLast?_append_of_ne_nil _ h1] at hc
    exact digito_nao_brancoTrim c (h2 c (List.mem_of_mem_getLast? hc))

/-- Um passo sobre a linha de cabeçalho `[SyncTrack]` muda a seção para
`SyncTrack`. -/
theorem passo_sync (st : DadosChart × List Char) :
    passoLinha st secaoSyncLinha = .ok (st.1, nomeSyncTrack) := by
  have h1 : aparar secaoSyncLinha = secaoSyncLinha := by decide
  have h2 : secaoMatch secaoSyncLinha = some nomeSyncTrack := by decide
  simp only [passoLinha, h1, h2]
  rw [if_neg (by decide)]

/-- Um passo na seção `SyncTrack` sobre a linha `0 = B dv` insere com
`emplace` a mudança de tempo `⟨0, valor⟩` (sem substituir tick existente). -/
theorem passo_tempoB (chart : DadosChart) (dv : List Char)
    (h1 : dv ≠ []) (h2 : ∀ c ∈ dv, ehDigito c = true)
    (h3 : valorDigitos dv ≤ 2147483647) :
    passoLinha (chart, nomeSyncTrack) (linhaTempoB dv) =
      .ok ({ chart with mudancasTempo :=
               mapEmplace 0 ⟨0, valorDigitos dv⟩ chart.mudancasTempo },
           nomeSyncTrack) := by
  have hap := aparar_linhaTempoB dv h1 h2
  have hm := matchTempoB_linha dv h1 h2
  have hs := stoiEx_digitos dv h1 h2 h3
  simp only [passoLinha, hap]
  rw [if_neg (by
    refine not_or.mpr ⟨?_, ?_⟩
    · simp [linhaTempoB]
    · rw [show (linhaTempoB dv).take 2 = ['0', ' '] from rfl]
      decide)]
  rw [show linhaTempoB dv = '0' :: ([' ', '=', ' ', 'B', ' '] ++ dv) from rfl]
  rw [secaoMatch_cons_ne '0' _ (by decide)]
  rw [if_neg (by simp)]
  rw [if_pos (by decide)]
  rw [show ('0' :: ([' ', '=', ' ', 'B', ' '] ++ dv)) = linhaTempoB dv from rfl]
  unfold processarLinhaNaSecao
  rw [if_neg (by decide), if_pos rfl]
  simp only [hm]
  rw [show stoiEx ['0'] = Except.ok 0 from rfl]
  simp only [Except.bind]
  rw [hs]
  rfl

/-- Um passo na seção `SyncTrack` sobre a linha `0 = TS dn` insere com
`emplace` a assinatura `⟨0, valor, 4⟩` (sem substituir tick existente). -/
theorem passo_ts (chart : DadosChart) (dn : List Char)
    (h1 : dn ≠ []) (h2 : ∀ c ∈ dn, ehDigito c = true)
    (h3 : valorDigitos dn ≤ 2147483647) :
    passoLinha (chart, nomeSyncTrack) (linhaTS dn) =
      .ok ({ chart with assinaturasTempo :=
               mapEmplace 0 ⟨0, valorDigitos dn, 4⟩ chart.assinaturasTempo },
           nomeSyncTrack) := by
  have hap := aparar_linhaTS dn h1 h2
  have hmB : matchTempoB (linhaTS dn) = none := rfl
  have hm := matchTS_linha dn h1 h2
  have hs := stoiEx_digitos dn h1 h2 h3
  simp only [passoLinha, hap]
  rw [if_neg (by
    refine not_or.mpr ⟨?_, ?_⟩
    · simp [linhaTS]
    · rw [show (linhaTS dn).take 2 = ['0', ' '] from rfl]
      decide)]
  rw [show linhaTS dn = '0' :: ([' ', '=', ' ', 'T', 'S', ' '] ++ dn) from rfl]
  rw [secaoMatch_cons_ne '0' _ (by decide)]
  rw [if_neg (by simp)]
  rw [if_pos (by decide)]
  rw [show ('0' :: ([' ', '=', ' ', 'T', 'S', ' '] ++ dn)) = linhaTS dn from rfl]
  unfold processarLinhaNaSecao
  rw [if_neg (by decide), if_pos rfl]
  simp only [hmB, hm]
  rw [show stoiEx ['0'] = Except.ok 0 from rfl]
  simp only [Except.bind]
  rw [hs]
  rfl

/-- C6 (contraexemplo): no arquivo concreto com `0 = B 120000` seguida de
`0 = B 150000` e `0 = TS 4` seguida de `0 = TS 3`, o parse devolve um único
evento por tick, mas com os valores da PRIMEIRA linha (120000 e 4), não os da
última como afirma a especificação. -/
theorem claim_C6_contraexemplo :
    (fazerParsingChart arquivoExemploC6).map
        (fun ch => (ch.mudancasTempo, ch.assinaturasTempo)) =
      .ok ([(0, ⟨0, 120000⟩)], [(0, ⟨0, 4, 4⟩)]) ∧
    ¬ (120000 : ℤ) = 150000 ∧ ¬ (4 : ℤ) = 3 :=
  ⟨rfl, by decide, by decide⟩

/-- C6 (emendada): para todo arquivo `[SyncTrack]` com duas linhas `B` no
tick 0 e duas linhas `TS` no tick 0, o mapeamento final tem exatamente um
evento por tick e o valor mantido é o da linha ANTERIOR: duplicatas
posteriores são ignoradas, porque `std::map::emplace` não substitui chaves
existentes. -/
theorem claim_C6_emendada (dv1 dv2 dn1 dn2 : List Char)
    (ha1 : dv1 ≠ []) (ha2 : ∀ c ∈ dv1, ehDigito c = true)
    (ha3 : valorDigitos dv1 ≤ 2147483647)
    (hb1 : dv2 ≠ []) (hb2 : ∀ c ∈ dv2, ehDigito c = true)
    (hb3 : valorDigitos dv2 ≤ 2147483647)
    (hc1 : dn1 ≠ []) (hc2 : ∀ c ∈ dn1, ehDigito c = true)
    (hc3 : valorDigitos dn1 ≤ 2147483647)
    (hd1 : dn2 ≠ []) (hd2 : ∀ c ∈ dn2, ehDigito c = true)
    (hd3 : valorDigitos dn2 ≤ 2147483647) :
    fazerParsingChart [secaoSyncLinha, linhaTempoB dv1, linhaTempoB dv2,
        linhaTS dn1, linhaTS dn2] =
      .ok { mudancasTempo := [(0, ⟨0, valorDigitos dv1⟩)],
            assinaturasTempo := [(0, ⟨0, valorDigitos dn1, 4⟩)] } := by
  have e1 : passoLinha (({} : DadosChart), ([] : List Char)) secaoSyncLinha =
      .ok ({}, nomeSyncTrack) := passo_sync _
  have e2 : passoLinha (({} : DadosChart), nomeSyncTrack) (linhaTempoB dv1) =
      .ok ({ mudancasTempo := [(0, ⟨0, valorDigitos dv1⟩)] }, nomeSyncTrack) :=
    passo_tempoB {} dv1 ha1 ha2 ha3
  have e3 : passoLinha (({ mudancasTempo := [(0, ⟨0, valorDigitos dv1⟩)] } :
        DadosChart), nomeSyncTrack) (linhaTempoB dv2) =
      .ok ({ mudancasTempo := [(0, ⟨0, valorDigitos dv1⟩)] }, nomeSyncTrack) :=
    passo_tempoB _ dv2 hb1 hb2 hb3
  have e4 : passoLinha (({ mudancasTempo := [(0, ⟨0, valorDigitos dv1⟩)] } :
        DadosChart), nomeSyncTrack) (linhaTS dn1) =
      .ok ({ mudancasTempo := [(0, ⟨0, valorDigitos dv1⟩)],
             assinaturasTempo := [(0, ⟨0, valorDigitos dn1, 4⟩)] },
           nomeSyncTrack) :=
    passo_ts _ dn1 hc1 hc2 hc3
  have e5 : passoLinha
      (({ mudancasTempo := [(0, ⟨0, valorDigitos dv1⟩)],
          assinaturasTempo := [(0, ⟨0, valorDigitos dn1, 4⟩)] } : DadosChart),
        nomeSyncTrack) (linhaTS dn2) =
      .ok ({ mudancasTempo := [(0, ⟨0, valorDigitos dv1⟩)],
             assinaturasTempo := [(0, ⟨0, valorDigitos dn1, 4⟩)] },
           nomeSyncTrack) :=
    passo_ts _ dn2 hd1 hd2 hd3
  unfold fazerParsingChart
  rw [if_neg (by simp)]
  simp only [percorrerLinhas, e1, e2, e3, e4, e5]
  rfl

/-- Testemunha de C6 emendada no arquivo concreto com valores 120000/150000 e
4/3. -/
theorem claim_C6_emendada_witness :
    fazerParsingChart [secaoSyncLinha, linhaTempoB ['1', '2', '0', '0', '0', '0'],
        linhaTempoB ['1', '5', '0', '0', '0', '0'], linhaTS ['4'], linhaTS ['3']] =
      .ok { mudancasTempo :=
              [(0, ⟨0, valorDigitos ['1', '2', '0', '0', '0', '0']⟩)],
            assinaturasTempo := [(0, ⟨0, valorDigitos ['4'], 4⟩)] } :=
  claim_C6_emendada ['1', '2', '0', '0', '0', '0'] ['1', '5', '0', '0', '0', '0']
    ['4'] ['3'] (by decide) (by decide) (by decide) (by decide) (by decide)
    (by decide) (by decide) (by decide) (by decide) (by decide) (by decide)
    (by decide)

/-- Decomposição de um `bind` que dá certo. -/
theorem bind_ok {α β : Type} (x : Except ErroParse α)
    (g : α → Except ErroParse β) (b : β) (h : x.bind g = .ok b) :
    ∃ a, x = .ok a ∧ g a = .ok b := by
  cases x with
  | error e => simp only [Except.bind] at h; exact Except.noConfusion h
  | ok a => exact ⟨a, rfl, by simpa only [Except.bind] using h⟩

/-- O despacho da seção `Song` numa chave diferente de `Resolution` preserva o
campo `resolucao`. -/
theorem aplicarChaveSong_resolucao (chart c2 : DadosChart)
    (chave valor : List Char) (hne : chave ≠ chaveResolution)
    (h : aplicarChaveSong chart chave valor = .ok c2) :
    c2.resolucao = chart.resolucao := by
  unfold aplicarChaveSong at h
  by_cases h1 : chave = chaveName
  · rw [if_pos h1] at h
    injection h with h0; subst h0; rfl
  rw [if_neg h1] at h
  by_cases h2 : chave = chaveArtist
  · rw [if_pos h2] at h
    injection h with h0; subst h0; rfl
  rw [if_neg h2] at h
  by_cases h3 : chave = chaveCharter
  · rw [if_pos h3] at h
    injection h with h0; subst h0; rfl
  rw [if_neg h3] at h
  by_cases h4 : chave = chaveAlbum
  · rw [if_pos h4] at h
    injection h with h0; subst h0; rfl
  rw [if_neg h4] at h
  by_cases h5 : chave = chaveYear
  · rw [if_pos h5] at h
    injection h with h0; subst h0; rfl
  rw [if_neg h5] at h
  by_cases h6 : chave = chaveGenre
  · rw [if_pos h6] at h
    injection h with h0; subst h0; rfl
  rw [if_neg h6] at h
  by_cases h7 : chave = chaveMediaType
  · rw [if_pos h7] at h
    injection h with h0; subst h0; rfl
  rw [if_neg h7] at h
  by_cases h8 : chave = chavePlayer2
  · rw [if_pos h8] at h
    injection h with h0; subst h0; rfl
  rw [if_neg h8] at h
  by_cases h9 : chave = chaveMusicStream
  · rw [if_pos h9] at h
    injection h with h0; subst h0; rfl
  rw [if_neg h9] at h
  by_cases h10 : chave = chaveOffset
  · rw [if_pos h10] at h
    cases hx : stodEx valor with
    | error e =>
      rw [hx] at h; simp only [Except.map] at h
      exact Except.noConfusion h
    | ok q =>
      rw [hx] at h; simp only [Except.map] at h
      injection h with h0
      subst h0; rfl
  rw [if_neg h10] at h
  by_cases h11 : chave = chaveResolution
  · exact absurd h11 hne
  rw [if_neg h11] at h
  by_cases h12 : chave = chaveDifficulty
  · rw [if_pos h12] at h
    cases hx : stoiEx valor with
    | error e =>
      rw [hx] at h; simp only [Except.map] at h
      exact Except.noConfusion h
    | ok q =>
      rw [hx] at h; simp only [Except.map] at h
      injection h with h0
      subst h0; rfl
  rw [if_neg h12] at h
  by_cases h13 : chave = chavePreviewStart
  · rw [if_pos h13] at h
    cases hx : stodEx valor with
    | error e =>
      rw [hx] at h; simp only [Except.map] at h
      exact Except.noConfusion h
    | ok q =>
      rw [hx] at h; simp only [Except.map] at h
      injection h with h0
      subst h0; rfl
  rw [if_neg h13] at h
  by_cases h14 : chave = chavePreviewEnd
  · rw [if_pos h14] at h
    cases hx : stodEx valor with
    | error e =>
      rw [hx] at h; simp only [Except.map] at h
      exact Except.noConfusion h
    | ok q =>
      rw [hx] at h; simp only [Except.map] at h
      injection h with h0
      subst h0; rfl
  rw [if_neg h14] at h
  injection h with h0; subst h0; rfl

/-- Uma linha processada em seção que não chega à chave `Resolution` preserva o
campo `resolucao`. -/
theorem processar_resolucao (chart c2 : DadosChart) (sec l : List Char)
    (h : processarLinhaNaSecao chart sec l = .ok c2)
    (hres : sec = nomeSong → ∀ par : List Char × List Char,
      kvMatch l = some par → par.1 ≠ chaveResolution) :
    c2.resolucao = chart.resolucao := by
  unfold processarLinhaNaSecao at h
  by_cases h1 : sec = nomeSong
  · rw [if_pos h1] at h
    cases hk : kvMatch l with
    | none =>
      simp only [hk] at h
      injection h with h0; subst h0; rfl
    | some par =>
      simp only [hk] at h
      exact aplicarChaveSong_resolucao chart c2 par.1 (removerAspas par.2)
        (hres h1 par hk) h
  · rw [if_neg h1] at h
    by_cases h2 : sec = nomeSyncTrack
    · rw [if_pos h2] at h
      cases hm : matchTempoB l with
      | some par =>
        simp only [hm] at h
        obtain ⟨t, _, h⟩ := bind_ok _ _ _ h
        obtain ⟨v, _, h⟩ := bind_ok _ _ _ h
        injection h with h0; subst h0; rfl
      | none =>
        simp only [hm] at h
        cases hts : matchTS l with
        | some tri =>
          simp only [hts] at h
          obtain ⟨t, _, h⟩ := bind_ok _ _ _ h
          obtain ⟨numerador, _, h⟩ := bind_ok _ _ _ h
          obtain ⟨den0, _, h⟩ := bind_ok _ _ _ h
          injection h with h0; subst h0; rfl
        | none =>
          simp only [hts] at h
          injection h with h0; subst h0; rfl
    · rw [if_neg h2] at h
      by_cases h3 : sec = nomeExpertSingle ∨ sec = nomeHardSingle ∨
          sec = nomeMediumSingle ∨ sec = nomeEasySingle
      · rw [if_pos h3] at h
        cases hn : matchNota l with
        | some tri =>
          simp only [hn] at h
          obtain ⟨t, _, h⟩ := bind_ok _ _ _ h
          obtain ⟨tr, _, h⟩ := bind_ok _ _ _ h
          obtain ⟨comp, _, h⟩ := bind_ok _ _ _ h
          injection h with h0; subst h0; rfl
        | none =>
          simp only [hn] at h
          injection h with h0; subst h0; rfl
      · rw [if_neg h3] at h
        injection h with h0; subst h0; rfl

/-- Um passo bem-sucedido numa linha que não define `Resolution` preserva o
campo `resolucao` e leva a seção a `proximaSecao`. -/
theorem passo_resolucao (chart : DadosChart) (sec l : List Char)
    (st2 : DadosChart × List Char)
    (hdef : linhaDefineResolucao sec l = false)
    (h : passoLinha (chart, sec) l = .ok st2) :
    st2.1.resolucao = chart.resolucao ∧ st2.2 = proximaSecao sec l := by
  unfold passoLinha at h
  unfold linhaDefineResolucao at hdef
  unfold proximaSecao
  by_cases h1 : aparar l = [] ∨ (aparar l).take 2 = ['/', '/']
  · rw [if_pos h1] at h
    injection h with h0
    subst h0
    refine ⟨rfl, ?_⟩
    have hnone : secaoMatch (aparar l) = none := by
      rcases h1 with h1 | h1
      · rw [h1]; rfl
      · cases hl : aparar l with
        | nil => rfl
        | cons c rest =>
          rw [hl] at h1
          simp only [List.take_succ_cons, List.cons.injEq] at h1
          exact secaoMatch_cons_ne c rest (by rw [h1.1]; decide)
    rw [hnone]
  · rw [if_neg h1] at h
    rw [if_neg h1] at hdef
    cases hs : secaoMatch (aparar l) with
    | some nova =>
      simp only [hs] at h
      injection h with h0
      subst h0
      exact ⟨rfl, rfl⟩
    | none =>
      simp only [hs] at h
      simp only [hs, Option.isSome_none, Bool.false_eq_true, if_false] at hdef
      by_cases h2 : aparar l = [Char.ofNat 123] ∨ aparar l = [Char.ofNat 125]
      · rw [if_pos h2] at h
        injection h with h0; subst h0
        exact ⟨rfl, rfl⟩
      · rw [if_neg h2] at h
        rw [if_neg h2] at hdef
        by_cases h3 : sec ≠ []
        · rw [if_pos h3] at h
          cases hpp : processarLinhaNaSecao chart sec (aparar l) with
          | error e =>
            rw [hpp] at h
            simp only [Except.map] at h
            exact Except.noConfusion h
          | ok c2 =>
            rw [hpp] at h
            simp only [Except.map] at h
            injection h with h0
            subst h0
            refine ⟨?_, rfl⟩
            refine processar_resolucao chart c2 sec (aparar l) hpp ?_
            intro hsec par hkv
            rw [if_pos hsec] at hdef
            simp only [hkv] at hdef
            simpa using hdef
        · rw [if_neg h3] at h
          injection h with h0; subst h0
          exact ⟨rfl, rfl⟩

/-- Ao longo de um percurso bem-sucedido sem linha que defina `Resolution`, o
campo `resolucao` não muda. -/
theorem percorrer_resolucao (linhas : List (List Char)) :
    ∀ (chart : DadosChart) (sec : List Char) (st : DadosChart × List Char),
      temLinhaResolucao sec linhas = false →
      percorrerLinhas (chart, sec) linhas = .ok st →
      st.1.resolucao = chart.resolucao := by
  induction linhas with
  | nil =>
    intro chart sec st _ h
    unfold percorrerLinhas at h
    injection h with h0
    subst h0
    rfl
  | cons l r ih =>
    intro chart sec st htem h
    unfold percorrerLinhas at h
    unfold temLinhaResolucao at htem
    rw [Bool.or_eq_false_iff] at htem
    cases hp : passoLinha (chart, sec) l with
    | error e => rw [hp] at h; exact Except.noConfusion h
    | ok st2 =>
      rw [hp] at h
      obtain ⟨hres, hsec⟩ := passo_resolucao chart sec l st2 htem.1 hp
      have htem2 : temLinhaResolucao st2.2 r = false := by
        rw [hsec]; exact htem.2
      have hst : st.1.resolucao = st2.1.resolucao := ih st2.1 st2.2 st htem2 h
      rw [hst, hres]

/-- C10: para todo arquivo de chart em que nenhuma linha define a chave
`Resolution` da seção `Song`, um parse bem-sucedido devolve
`resolucao = 192` — o valor padrão do inicializador de membro de
`DadosChart`, que a especificação não declara. -/
theorem claim_C10_resolucao_padrao (linhas : List (List Char))
    (chart : DadosChart)
    (hnores : temLinhaResolucao [] linhas = false)
    (h : fazerParsingChart linhas = .ok chart) :
    chart.resolucao = 192 := by
  unfold fazerParsingChart at h
  by_cases hnil : linhas = []
  · rw [if_pos hnil] at h; exact Except.noConfusion h
  · rw [if_neg hnil] at h
    cases hp : percorrerLinhas ({}, []) linhas with
    | error e => rw [hp] at h; exact Except.noConfusion h
    | ok st =>
      rw [hp] at h
      injection h with h2
      have hr := percorrer_resolucao linhas {} [] st hnores hp
      rw [← h2]
      exact hr

/-- Testemunha de C10 no arquivo de exemplo sem chave `Resolution`. -/
theorem claim_C10_resolucao_padrao_witness :
    temLinhaResolucao [] arquivoExemploC10 = false ∧
    fazerParsingChart arquivoExemploC10 = .ok chartExemploC10 ∧
    chartExemploC10.resolucao = 192 :=
  ⟨by decide, by rfl,
   claim_C10_resolucao_padrao arquivoExemploC10 chartExemploC10
     (by decide) (by rfl)⟩

end RiffHero
